import Mathlib

/-!
Verification development for the Smar-TEST generation-and-parsing pipeline
(`src/core/test_generator.py`, `src/templates/prompts.py`, `src/models/*.py`).

Python strings are modelled as Lean `String`s (sequences of code points, so
`len`/slicing coincide with `String.length`/`List.take` on `String.toList`).
Python `json.loads` is modelled by `jsonLoads` below; number literals are
modelled as integers (no claim depends on fractional JSON numbers).
Dynamic Python operations that can raise (`in`, `[]`, iteration, `.get`)
are modelled in `Except Unit`.
-/

namespace SmarTest

/-- JSON values as produced by `json.loads`.  Objects keep insertion order;
duplicate keys are collapsed (last value wins) when parsing, as in Python. -/
inductive Json where
  | null : Json
  | bool : Bool → Json
  | num : Int → Json
  | str : String → Json
  | arr : List Json → Json
  | obj : List (String × Json) → Json
deriving Repr

mutual

/-- Structural equality test on JSON values. -/
def Json.beq : Json → Json → Bool
  | .null, .null => true
  | .bool a, .bool b => a = b
  | .num a, .num b => a = b
  | .str a, .str b => a = b
  | .arr xs, .arr ys => Json.beqList xs ys
  | .obj kvs, .obj kws => Json.beqKV kvs kws
  | _, _ => false

/-- Structural equality test on JSON value lists. -/
def Json.beqList : List Json → List Json → Bool
  | [], [] => true
  | x :: xs, y :: ys => Json.beq x y && Json.beqList xs ys
  | _, _ => false

/-- Structural equality test on JSON key/value lists. -/
def Json.beqKV : List (String × Json) → List (String × Json) → Bool
  | [], [] => true
  | (k1, v1) :: xs, (k2, v2) :: ys => k1 = k2 && Json.beq v1 v2 && Json.beqKV xs ys
  | _, _ => false

end

theorem Json.beq_correct : ∀ a b : Json, (Json.beq a b = true ↔ a = b) := by
  have main : ∀ n : Nat,
      (∀ a b : Json, sizeOf a ≤ n → (Json.beq a b = true ↔ a = b))
      ∧ (∀ xs ys : List Json, sizeOf xs ≤ n → (Json.beqList xs ys = true ↔ xs = ys))
      ∧ (∀ kvs kws : List (String × Json), sizeOf kvs ≤ n →
          (Json.beqKV kvs kws = true ↔ kvs = kws)) := by
    intro n
    induction n with
    | zero =>
      refine ⟨fun a b h => ?_, fun xs ys h => ?_, fun kvs kws h => ?_⟩
      · cases a <;> simp_arith at h
      · cases xs <;> simp_arith at h
      · cases kvs <;> simp_arith at h
    | succ n ih =>
      refine ⟨fun a b h => ?_, fun xs ys h => ?_, fun kvs kws h => ?_⟩
      · cases a <;> cases b <;>
          simp_all [Json.beq] <;>
          first
          | (apply ih.2.1; simp_arith at h; omega)
          | (apply ih.2.2; simp_arith at h; omega)
      · cases xs with
        | nil => cases ys <;> simp [Json.beqList]
        | cons x xs =>
          cases ys with
          | nil => simp [Json.beqList]
          | cons y ys =>
            simp_arith at h
            rw [show Json.beqList (x :: xs) (y :: ys)
                  = (Json.beq x y && Json.beqList xs ys) from rfl]
            simp only [Bool.and_eq_true, List.cons.injEq]
            rw [ih.1 x y (by omega), ih.2.1 xs ys (by omega)]
      · cases kvs with
        | nil => cases kws <;> simp [Json.beqKV]
        | cons kv kvs =>
          cases kws with
          | nil => simp [Json.beqKV]
          | cons kw kws =>
            obtain ⟨k1, v1⟩ := kv
            obtain ⟨k2, v2⟩ := kw
            simp_arith at h
            rw [show Json.beqKV ((k1, v1) :: kvs) ((k2, v2) :: kws)
                  = ((k1 = k2 : Bool) && Json.beq v1 v2 && Json.beqKV kvs kws) from rfl]
            simp only [Bool.and_eq_true, List.cons.injEq, Prod.mk.injEq,
              decide_eq_true_eq]
            rw [ih.1 v1 v2 (by omega), ih.2.2 kvs kws (by omega)]
            try tauto
  exact fun a b => (main (sizeOf a)).1 a b le_rfl

instance : DecidableEq Json := fun a b =>
  decidable_of_iff (Json.beq a b = true) (Json.beq_correct a b)

/-- JSON token whitespace accepted between tokens by `json.loads`. -/
def isJsonWs (c : Char) : Bool :=
  c = ' ' || c = '\t' || c = '\n' || c = '\r'

/-- Whitespace class of Python regex `\s` and of `str.strip()` on ASCII text. -/
def isRegexWs (c : Char) : Bool :=
  c = ' ' || c = '\t' || c = '\n' || c = '\r' || c = '\x0c' || c = '\x0b'

/-- Replace an object key if present (keeping its position), else append:
the duplicate-key behaviour of building a Python dict. -/
def objInsert (kvs : List (String × Json)) (k : String) (v : Json) :
    List (String × Json) :=
  if kvs.any (fun kv => kv.1 = k) then
    kvs.map (fun kv => if kv.1 = k then (k, v) else kv)
  else kvs ++ [(k, v)]

/-- Decimal digit character. -/
def digitChar (d : Nat) : Char := Char.ofNat (48 + d)

/-- Decimal digit value of a character. -/
def digitVal (c : Char) : Nat := c.toNat - 48

def isDigit (c : Char) : Bool := '0' ≤ c && c ≤ '9'

/-- Hexadecimal digit value (for `\uXXXX` escapes). -/
def hexVal (c : Char) : Option Nat :=
  if '0' ≤ c && c ≤ '9' then some (c.toNat - 48)
  else if 'a' ≤ c && c ≤ 'f' then some (c.toNat - 87)
  else if 'A' ≤ c && c ≤ 'F' then some (c.toNat - 55)
  else none

/-- Parse the body of a JSON string literal (the opening quote already
consumed); returns the decoded characters and the rest after the closing
quote.  Strict mode: raw control characters are rejected, as in Python. -/
def parseJString : Nat → List Char → Option (List Char × List Char)
  | 0, _ => none
  | _, [] => none
  | fuel + 1, c :: rest =>
    if c = '"' then some ([], rest)
    else if c = '\\' then
      match rest with
      | [] => none
      | e :: rest2 =>
        let decoded : Option (Char × List Char) :=
          if e = '"' then some ('"', rest2)
          else if e = '\\' then some ('\\', rest2)
          else if e = '/' then some ('/', rest2)
          else if e = 'b' then some ('\x08', rest2)
          else if e = 'f' then some ('\x0c', rest2)
          else if e = 'n' then some ('\n', rest2)
          else if e = 'r' then some ('\r', rest2)
          else if e = 't' then some ('\t', rest2)
          else if e = 'u' then
            match rest2 with
            | h1 :: h2 :: h3 :: h4 :: rest3 =>
              match hexVal h1, hexVal h2, hexVal h3, hexVal h4 with
              | some a, some b, some cc, some d =>
                let n := ((a * 16 + b) * 16 + cc) * 16 + d
                some (Char.ofNat n, rest3)
              | _, _, _, _ => none
            | _ => none
          else none
        match decoded with
        | none => none
        | some (ch, rest3) =>
          match parseJString fuel rest3 with
          | none => none
          | some (s, rem) => some (ch :: s, rem)
    else if c.toNat < 32 then none
    else
      match parseJString fuel rest with
      | none => none
      | some (s, rem) => some (c :: s, rem)

/-- Parse the digits of a JSON integer (JSON grammar: `0` or a nonzero
digit followed by digits). -/
def parseJDigits (cs : List Char) : Option (Nat × List Char) :=
  match cs with
  | [] => none
  | c :: rest =>
    if c = '0' then some (0, rest)
    else if isDigit c then
      let digs := rest.takeWhile isDigit
      let rem := rest.dropWhile isDigit
      some ((c :: digs).foldl (fun a d => a * 10 + digitVal d) 0, rem)
    else none

mutual

/-- Recursive-descent model of `json.loads` value parsing.  Fractional and
exponent numerals are not modelled (such inputs simply fail to parse). -/
def parseJValue : Nat → List Char → Option (Json × List Char)
  | 0, _ => none
  | fuel + 1, cs =>
    let cs := cs.dropWhile isJsonWs
    match cs with
    | [] => none
    | c :: rest =>
      if c = '\x7b' then
        let rest2 := rest.dropWhile isJsonWs
        match rest2 with
        | '\x7d' :: rem => some (Json.obj [], rem)
        | _ => parseJFields fuel rest []
      else if c = '[' then
        let rest2 := rest.dropWhile isJsonWs
        match rest2 with
        | ']' :: rem => some (Json.arr [], rem)
        | _ => parseJElems fuel rest []
      else if c = '"' then
        match parseJString (rest.length + 1) rest with
        | none => none
        | some (s, rem) => some (Json.str s.asString, rem)
      else if c = 't' then
        if ['r', 'u', 'e'].isPrefixOf rest then some (Json.bool true, rest.drop 3)
        else none
      else if c = 'f' then
        if ['a', 'l', 's', 'e'].isPrefixOf rest then some (Json.bool false, rest.drop 4)
        else none
      else if c = 'n' then
        if ['u', 'l', 'l'].isPrefixOf rest then some (Json.null, rest.drop 3)
        else none
      else if c = '-' then
        match parseJDigits rest with
        | none => none
        | some (n, rem) => some (Json.num (-(n : Int)), rem)
      else if isDigit c then
        match parseJDigits (c :: rest) with
        | none => none
        | some (n, rem) => some (Json.num (n : Int), rem)
      else none

/-- Parse `"key": value` pairs of an object (after the opening brace,
knowing the object is nonempty). -/
def parseJFields : Nat → List Char → List (String × Json) → Option (Json × List Char)
  | 0, _, _ => none
  | fuel + 1, cs, acc =>
    let cs := cs.dropWhile isJsonWs
    match cs with
    | '"' :: rest =>
      match parseJString (rest.length + 1) rest with
      | none => none
      | some (k, rest2) =>
        let rest3 := rest2.dropWhile isJsonWs
        match rest3 with
        | ':' :: rest4 =>
          match parseJValue fuel rest4 with
          | none => none
          | some (v, rest5) =>
            let acc := objInsert acc k.asString v
            let rest6 := rest5.dropWhile isJsonWs
            match rest6 with
            | ',' :: rest7 => parseJFields fuel rest7 acc
            | '\x7d' :: rest7 => some (Json.obj acc, rest7)
            | _ => none
        | _ => none
    | _ => none

/-- Parse the elements of a (nonempty) array after the opening bracket. -/
def parseJElems : Nat → List Char → List Json → Option (Json × List Char)
  | 0, _, _ => none
  | fuel + 1, cs, acc =>
    match parseJValue fuel cs with
    | none => none
    | some (v, rest) =>
      let rest2 := rest.dropWhile isJsonWs
      match rest2 with
      | ',' :: rest3 => parseJElems fuel rest3 (acc ++ [v])
      | ']' :: rest3 => some (Json.arr (acc ++ [v]), rest3)
      | _ => none

end

/-- Model of Python `json.loads` on a whole text: one JSON value surrounded
by optional whitespace, nothing else. -/
def jsonLoads (cs : List Char) : Option Json :=
  match parseJValue (2 * cs.length + 2) cs with
  | none => none
  | some (v, rest) => if rest.dropWhile isJsonWs = [] then some v else none

/-! ### String utilities modelling Python primitives -/

/-- Python slicing `s[:n]` (first `n` code points). -/
def strTake (s : String) (n : Nat) : String := (s.toList.take n).asString

/-- Python `str.strip()` (both-end whitespace removal) on a char list. -/
def stripChars (cs : List Char) : List Char :=
  ((cs.dropWhile isRegexWs).reverse.dropWhile isRegexWs).reverse

/-- Python `str.strip()` on a string. -/
def pyStrip (s : String) : String := (stripChars s.toList).asString

/-- Does `pat` occur as a contiguous run inside `cs`?  (Python `in`.) -/
def containsSub (pat : List Char) : List Char → Bool
  | [] => pat.isPrefixOf []
  | c :: rest => pat.isPrefixOf (c :: rest) || containsSub pat rest

/-- Index of the first occurrence of `pat` in `cs`, if any. -/
def findSubPos (pat : List Char) : List Char → Option Nat
  | [] => if pat.isPrefixOf [] then some 0 else none
  | c :: rest =>
    if pat.isPrefixOf (c :: rest) then some 0
    else match findSubPos pat rest with
      | some i => some (i + 1)
      | none => none

/-- Most-significant-first decimal digits, fuel-indexed (the fuel only
needs to exceed the digit count). -/
def natDigitsGo : Nat → Nat → List Char
  | 0, _ => []
  | fuel + 1, n =>
    if n < 10 then [digitChar n]
    else natDigitsGo fuel (n / 10) ++ [digitChar (n % 10)]

/-- Most-significant-first decimal digits of a natural number
(model of Python decimal formatting of a nonnegative int). -/
def natDigits (n : Nat) : List Char := natDigitsGo (n + 1) n

/-- Python format `f'{n:03d}'` for a natural number: zero-pad to width 3. -/
def pad3 (n : Nat) : List Char :=
  List.replicate (3 - (natDigits n).length) '0' ++ natDigits n

/-! ### Python dynamic operations (those used by the parser), modelled in
`Except Unit` — `error` marks an operation that raises at run time. -/

/-- Python truthiness of a JSON-shaped value. -/
def jsonTruthy : Json → Bool
  | Json.null => false
  | Json.bool b => b
  | Json.num n => n ≠ 0
  | Json.str s => s ≠ ""
  | Json.arr xs => ¬ xs.isEmpty
  | Json.obj kvs => ¬ kvs.isEmpty

/-- Dict-style key lookup (last binding wins, matching dict construction). -/
def objLookup (kvs : List (String × Json)) (k : String) : Option Json :=
  match kvs.reverse.find? (fun kv => kv.1 = k) with
  | some kv => some kv.2
  | none => none

/-- Python `key in value`: key test for dicts, membership for lists,
substring for strings; raises (`error`) for numbers, booleans, `None`. -/
def pyIn (k : String) : Json → Except Unit Bool
  | Json.obj kvs => .ok (kvs.any (fun kv => kv.1 = k))
  | Json.arr xs => .ok (xs.any (fun x => x = Json.str k))
  | Json.str s => .ok (containsSub k.toList s.toList)
  | _ => .error ()

/-- Python `value[key]` with a string key: only dicts support it (and the
callers establish the key is present); everything else raises. -/
def pyIndex (v : Json) (k : String) : Except Unit Json :=
  match v with
  | Json.obj kvs =>
    match objLookup kvs k with
    | some x => .ok x
    | none => .error ()
  | _ => .error ()

/-- Python iteration `for x in v`: lists yield elements, strings yield
one-character strings, dicts yield their keys; the rest raises. -/
def pyIter : Json → Except Unit (List Json)
  | Json.arr xs => .ok xs
  | Json.str s => .ok (s.toList.map (fun c => Json.str (String.mk [c])))
  | Json.obj kvs => .ok (kvs.map (fun kv => Json.str kv.1))
  | _ => .error ()

/-- Python `v.get(k, d)`: dict lookup with default; non-dicts have no
`.get` attribute and raise. -/
def pyGet (v : Json) (k : String) (d : Json) : Except Unit Json :=
  match v with
  | Json.obj kvs => .ok ((objLookup kvs k).getD d)
  | _ => .error ()

/-! ### Data model (`src/models/test_case.py`)

Field values assigned by the parser come from untyped `dict.get` calls, so
they are modelled as arbitrary `Json` values; the dataclasses perform no
type checking. -/

/-- `TestStep` dataclass. -/
structure TestStep where
  step_number : Json
  action : Json
  test_data : Json
  expected_result : Json
deriving DecidableEq, Repr

/-- `ManualTestCase` dataclass (field order as in the source; `status`
defaults to `"New"`, `notes` to `""`). -/
structure ManualTestCase where
  test_id : Json
  test_name : Json
  description : Json
  preconditions : Json
  test_steps : List TestStep
  expected_results : Json
  priority : Json
  category : Json
  status : Json
  tags : Json
  notes : Json
deriving DecidableEq, Repr

/-- `AutomationScript` dataclass.  `script_type` is always supplied as a
Python string literal by the parser, the remaining fields come from
untyped lookups. -/
structure AutomationScript where
  script_type : String
  filename : Json
  content : Json
  related_test_ids : Json
  feature_name : Json
  scenario_count : Json
deriving DecidableEq, Repr

/-! ### `_extract_json` (src/core/test_generator.py lines 490-514) -/

/-- Lazy search for the closing brace of the fenced-JSON regex
```` ```(?:json)?\s*(\{[\s\S]*?\})\s*``` ````: first `\x7d` after which
`\s*` then three backticks follow; `whole` is the text from the opening
brace, `n` the index scanned so far. -/
def lazyCloseScan : List Char → Nat → List Char → Option (List Char)
  | [], _, _ => none
  | c :: rest, n, whole =>
    if c = '\x7d' && ("```".toList).isPrefixOf (rest.dropWhile isRegexWs) then
      some (whole.take (n + 1))
    else lazyCloseScan rest (n + 1) whole

/-- Head-match for the fenced pattern proper: consume the backticks, the
optional `json` tag and `\s*` (all deterministic — no char of `json` or
`\x7b` is whitespace, so regex backtracking cannot produce a different
outcome), then find the first `\x7d` whose following `\s*` run ends at
```` ``` ```` (the lazy `[\s\S]*?` semantics).  Returns the capture
group: opening through closing brace. -/
def tryFenceAt (cs : List Char) : Option (List Char) :=
  if ("```".toList).isPrefixOf cs then
    let r1 := cs.drop 3
    let r2 := if ("json".toList).isPrefixOf r1 then r1.drop 4 else r1
    let r3 := r2.dropWhile isRegexWs
    match r3 with
    | '\x7b' :: body => lazyCloseScan body 1 r3
    | _ => none
  else none

/-- `re.search` scan for the fenced-JSON pattern: try every start
position left to right. -/
def fencedCandidate : List Char → Option (List Char)
  | [] => none
  | c :: rest =>
    match tryFenceAt (c :: rest) with
    | some cap => some cap
    | none => fencedCandidate rest

/-- Model of `re.search(r'\{[\s\S]*\}', text)`: the greedy `[\s\S]*`
makes the match run from the first `\x7b` to the last `\x7d` of the whole
text (it exists iff some `\x7d` occurs after the first `\x7b`). -/
def braceSpan (cs : List Char) : Option (List Char) :=
  match cs.findIdx? (fun c => c = '\x7b') with
  | none => none
  | some i =>
    match cs.reverse.findIdx? (fun c => c = '\x7d') with
    | none => none
    | some rj =>
      let j := cs.length - 1 - rj
      if i < j then some ((cs.drop i).take (j - i + 1)) else none

/-- Modelled from the spec: "the first balanced `{...}` span in the raw
text" — scan from the first opening brace, tracking nesting depth, and
stop at the brace that balances it.  (This is what the spec claims the
second Tier-1 attempt does; compare with `braceSpan`, which is what the
code's greedy regex actually does.) -/
def balancedSpanGo : List Char → Nat → List Char → Option (List Char)
  | [], _, _ => none
  | c :: rest, depth, acc =>
    if c = '\x7b' then balancedSpanGo rest (depth + 1) (acc ++ [c])
    else if c = '\x7d' then
      if depth ≤ 1 then some (acc ++ [c])
      else balancedSpanGo rest (depth - 1) (acc ++ [c])
    else balancedSpanGo rest depth (acc ++ [c])

/-- Modelled from the spec (see `balancedSpanGo`). -/
def balancedSpan (cs : List Char) : Option (List Char) :=
  match cs.findIdx? (fun c => c = '\x7b') with
  | none => none
  | some i => balancedSpanGo (cs.drop i) 0 []

/-- Tier-1 attempt 1: JSON inside a fenced code block. -/
def tier1Fenced (cs : List Char) : Option Json :=
  match fencedCandidate cs with
  | some cand => jsonLoads cand
  | none => none

/-- Tier-1 attempt 2: the raw `\{[\s\S]*\}` span. -/
def tier1Span (cs : List Char) : Option Json :=
  match braceSpan cs with
  | some cand => jsonLoads cand
  | none => none

/-- `TestGenerator._extract_json`: three extraction attempts in order,
first success wins, `none` (Python `None`, not an exception) if all fail. -/
def extract_json (text : String) : Option Json :=
  match tier1Fenced text.toList with
  | some j => some j
  | none =>
    match tier1Span text.toList with
    | some j => some j
    | none => jsonLoads text.toList

/-- The Tier-1 cascade as the spec words it, with the second attempt
taken to be the first *balanced* brace span (refinement comparison
definition; not part of the code embedding). -/
def extract_json_claimed (text : String) : Option Json :=
  match tier1Fenced text.toList with
  | some j => some j
  | none =>
    match balancedSpan text.toList with
    | some cand =>
      match jsonLoads cand with
      | some j => some j
      | none => jsonLoads text.toList
    | none => jsonLoads text.toList

/-- `TestSuite` dataclass. -/
structure TestSuite where
  name : String
  description : String
  manual_tests : List ManualTestCase
  gherkin_scripts : List AutomationScript
  selenium_scripts : List AutomationScript
  playwright_scripts : List AutomationScript
  client_name : String
  requirement_source : String
  generated_at : String
deriving DecidableEq, Repr

/-! ### `_parse_manual_tests` (src/core/test_generator.py lines 285-336) -/

/-- The generated fallback id `f'TC_\x7blen(tests)+1:03d\x7d'`. -/
def fallbackTestId (priorTests : Nat) : String :=
  "TC_" ++ (pad3 (priorTests + 1)).asString

/-- One iteration of the step loop: `TestStep(step_number=step_data.get(
'step_number', len(steps)+1), ...)`.  Raises iff `step_data` is not a
dict. -/
def parseStep (priorSteps : Nat) (sd : Json) : Except Unit TestStep := do
  let sn ← pyGet sd "step_number" (Json.num (Int.ofNat (priorSteps + 1)))
  let ac ← pyGet sd "action" (Json.str "")
  let td ← pyGet sd "test_data" (Json.str "")
  let er ← pyGet sd "expected_result" (Json.str "")
  pure ⟨sn, ac, td, er⟩

/-- The `for step_data in tc_data.get('test_steps', [])` loop; an
exception from any step aborts the whole record. -/
def buildSteps : List Json → List TestStep → Except Unit (List TestStep)
  | [], acc => .ok acc
  | sd :: rest, acc =>
    match parseStep acc.length sd with
    | .error e => .error e
    | .ok st => buildSteps rest (acc ++ [st])

/-- The body of the per-record `try`: build the steps, then the
`ManualTestCase` with defaulted fields.  `priorTests` is `len(tests)` at
that point (used by the fallback id). -/
def parseRecord (priorTests : Nat) (tc : Json) : Except Unit ManualTestCase := do
  let stepsVal ← pyGet tc "test_steps" (Json.arr [])
  let items ← pyIter stepsVal
  let steps ← buildSteps items []
  let tid ← pyGet tc "test_id" (Json.str (fallbackTestId priorTests))
  let tname ← pyGet tc "test_name" (Json.str "Unnamed Test")
  let desc ← pyGet tc "description" (Json.str "")
  let pre ← pyGet tc "preconditions" (Json.arr [])
  let er ← pyGet tc "expected_results" (Json.arr [])
  let pri ← pyGet tc "priority" (Json.str "Medium")
  let cat ← pyGet tc "category" (Json.str "Functional")
  let tags ← pyGet tc "tags" (Json.arr [])
  pure ⟨tid, tname, desc, pre, steps, er, pri, cat, Json.str "New", tags, Json.str ""⟩

/-- The record loop: a record that raises is skipped (`continue`), the
rest are still processed. -/
def parseRecordsLoop : List Json → List ManualTestCase → List ManualTestCase
  | [], tests => tests
  | tc :: rest, tests =>
    match parseRecord tests.length tc with
    | .ok t => parseRecordsLoop rest (tests ++ [t])
    | .error _ => parseRecordsLoop rest tests

/-- The placeholder test case built in the `except` branch. -/
def placeholderTest : ManualTestCase :=
  ⟨Json.str "TC_001", Json.str "Manual Review Required",
   Json.str "The LLM response could not be parsed. Please review the raw output.",
   Json.arr [Json.str "Review LLM output"],
   [⟨Json.num 1, Json.str "Review raw LLM response", Json.str "", Json.str ""⟩],
   Json.arr [Json.str "Test cases extracted manually"],
   Json.str "High", Json.str "Functional", Json.str "New", Json.arr [], Json.str ""⟩

/-- `TestGenerator._parse_manual_tests`.  The `except` branch (which
appends `placeholderTest`) is reachable only from an operation that
raises; when `_extract_json` returns `None` nothing raises and the
(empty) `tests` list is returned. -/
def parse_manual_tests (response : String) : List ManualTestCase :=
  match extract_json response with
  | none => []
  | some j =>
    if jsonTruthy j then
      match pyIn "test_cases" j with
      | .error _ => [placeholderTest]
      | .ok false => []
      | .ok true =>
        match pyIndex j "test_cases" with
        | .error _ => [placeholderTest]
        | .ok v =>
          match pyIter v with
          | .error _ => [placeholderTest]
          | .ok items => parseRecordsLoop items []
    else []

/-! Clean characterisation of the record mapping, proved equal to the
embedded loop in the theorems below. -/

/-- Is a step record mappable without raising (a dict)? -/
def stepRecordOk (sd : Json) : Bool :=
  match sd with
  | Json.obj _ => true
  | _ => false

/-- Does a test-case record map without raising?  (It must be a dict and
its `test_steps` value, when present, must iterate into dicts only.) -/
def recordOk (tc : Json) : Bool :=
  match tc with
  | Json.obj kvs =>
    match pyIter ((objLookup kvs "test_steps").getD (Json.arr [])) with
    | .ok items => items.all stepRecordOk
    | .error _ => false
  | _ => false

/-- The step produced for the `i`-th step record. -/
def mkStepClean (i : Nat) (sd : Json) : TestStep :=
  match sd with
  | Json.obj kvs =>
    ⟨(objLookup kvs "step_number").getD (Json.num (Int.ofNat (i + 1))),
     (objLookup kvs "action").getD (Json.str ""),
     (objLookup kvs "test_data").getD (Json.str ""),
     (objLookup kvs "expected_result").getD (Json.str "")⟩
  | _ => ⟨Json.null, Json.null, Json.null, Json.null⟩

/-- The test case produced for a mappable record when `i` records were
already produced before it. -/
def mkRecordClean (i : Nat) (tc : Json) : ManualTestCase :=
  match tc with
  | Json.obj kvs =>
    let items := match pyIter ((objLookup kvs "test_steps").getD (Json.arr [])) with
      | .ok its => its
      | .error _ => []
    ⟨(objLookup kvs "test_id").getD (Json.str (fallbackTestId i)),
     (objLookup kvs "test_name").getD (Json.str "Unnamed Test"),
     (objLookup kvs "description").getD (Json.str ""),
     (objLookup kvs "preconditions").getD (Json.arr []),
     items.enum.map (fun p => mkStepClean p.1 p.2),
     (objLookup kvs "expected_results").getD (Json.arr []),
     (objLookup kvs "priority").getD (Json.str "Medium"),
     (objLookup kvs "category").getD (Json.str "Functional"),
     Json.str "New",
     (objLookup kvs "tags").getD (Json.arr []),
     Json.str ""⟩
  | _ => placeholderTest

/-! ### `_extract_raw_gherkin` (src/core/test_generator.py lines 382-411) -/

def featureKw : List Char := "Feature:".toList

def scenarioKw : List Char := "Scenario".toList

/-- Number of chars the lazy `.*?` of `(Feature:.*?)(?=\nFeature:|\Z)`
takes after the keyword: up to the first `"\nFeature:"` or end of text. -/
def blockRest : List Char → Nat
  | [] => 0
  | c :: rest =>
    if ('\n' :: featureKw).isPrefixOf (c :: rest) then 0
    else 1 + blockRest rest

/-- Length of the regex match starting at a `Feature:` occurrence. -/
def featureBlockLen (cs : List Char) : Nat := 8 + blockRest (cs.drop 8)

/-- `re.findall` for `(Feature:.*?)(?=\nFeature:|\Z)` with DOTALL:
scan left to right, resume after each match (the lookahead consumes
nothing, so the next match starts at the `Feature:` after the newline). -/
def featureFindallGo : Nat → List Char → List (List Char)
  | 0, _ => []
  | _, [] => []
  | fuel + 1, c :: rest =>
    if featureKw.isPrefixOf (c :: rest) then
      let len := featureBlockLen (c :: rest)
      (c :: rest).take len :: featureFindallGo fuel ((c :: rest).drop len)
    else featureFindallGo fuel rest

def featureFindall (cs : List Char) : List (List Char) :=
  featureFindallGo cs.length cs

def countLeading (p : Char → Bool) : List Char → Nat
  | [] => 0
  | c :: rest => if p c then 1 + countLeading p rest else 0

/-- Model of `re.match(r'Feature:\s*(.+)', content)` followed by
`.group(1).strip()`.  For the contents this is applied to (kept blocks
start with `Feature:` and contain the non-whitespace text `Scenario`
after it), the greedy `\s*` never needs to backtrack: the group is the
rest of the line from the first non-whitespace character. -/
def featureNameOf (content : List Char) : Option (List Char) :=
  if featureKw.isPrefixOf content then
    let rest := content.drop 8
    let tail := rest.drop (countLeading isRegexWs rest)
    if tail.isEmpty then none
    else some (stripChars (tail.takeWhile (fun c => c ≠ '\n')))
  else none

def outlineKw : List Char := "Outline:".toList

/-- Head-match length for `Scenario(?:\s+Outline)?:` (greedy optional
group, with the fallback to the plain `Scenario:` when `\s+Outline:`
does not follow). -/
def scenarioMatchLen (cs : List Char) : Option Nat :=
  if scenarioKw.isPrefixOf cs then
    let rest := cs.drop 8
    let w := countLeading isRegexWs rest
    if w > 0 && outlineKw.isPrefixOf (rest.drop w) then some (8 + w + 8)
    else
      match rest with
      | ':' :: _ => some 9
      | _ => none
  else none

/-- `len(re.findall(r'Scenario(?:\s+Outline)?:', content))`. -/
def countScenariosGo : Nat → List Char → Nat
  | 0, _ => 0
  | _, [] => 0
  | fuel + 1, c :: rest =>
    match scenarioMatchLen (c :: rest) with
    | some len => 1 + countScenariosGo fuel ((c :: rest).drop len)
    | none => countScenariosGo fuel rest

def countScenarios (cs : List Char) : Nat := countScenariosGo cs.length cs

/-- `re.sub(r'[^a-zA-Z0-9_]', '_', ·)` on one character. -/
def slugChar (c : Char) : Char :=
  if ('a' ≤ c && c ≤ 'z') || ('A' ≤ c && c ≤ 'Z') ||
     ('0' ≤ c && c ≤ '9') || c = '_' then c else '_'

/-- `re.sub(r'[^a-zA-Z0-9_]', '_', feature_name.lower())[:50]`. -/
def slugify (name : List Char) : List Char :=
  ((name.map Char.toLower).map slugChar).take 50

/-- The loop body of `_extract_raw_gherkin` for match index `i`. -/
def mkGherkinFromBlock (i : Nat) (m : List Char) : Option AutomationScript :=
  let content := stripChars m
  if !content.isEmpty && containsSub scenarioKw content then
    let feature_name :=
      match featureNameOf content with
      | some nm => nm
      | none => ("Feature ").toList ++ natDigits (i + 1)
    let filename := slugify feature_name ++ (".feature").toList
    some ⟨"gherkin", Json.str filename.asString, Json.str content.asString,
          Json.arr [], Json.str feature_name.asString,
          Json.num (Int.ofNat (countScenarios content))⟩
  else none

/-- `TestGenerator._extract_raw_gherkin`. -/
def extract_raw_gherkin (response : String) : List AutomationScript :=
  ((featureFindall response.toList).enum).filterMap
    (fun p => mkGherkinFromBlock p.1 p.2)

/-! ### `_parse_gherkin_scripts` and `_parse_automation_scripts` -/

/-- Loop body for a `feature_files` entry in `_parse_gherkin_scripts`:
skip entries with falsy `content`; a non-dict entry raises. -/
def featureFileItem (ff : Json) : Except Unit (Option AutomationScript) := do
  let content ← pyGet ff "content" (Json.str "")
  if jsonTruthy content then
    let fn ← pyGet ff "filename" (Json.str "feature.feature")
    let rti ← pyGet ff "related_test_ids" (Json.arr [])
    let fname ← pyGet ff "feature_name" (Json.str "")
    let sc ← pyGet ff "scenario_count" (Json.num 0)
    pure (some ⟨"gherkin", fn, content, rti, fname, sc⟩)
  else pure none

/-- Loop body for the alternate `scripts` key in `_parse_gherkin_scripts`
(`feature_name` falls back to `description`). -/
def gherkinScriptsItem (sd : Json) : Except Unit (Option AutomationScript) := do
  let content ← pyGet sd "content" (Json.str "")
  if jsonTruthy content then
    let fn ← pyGet sd "filename" (Json.str "feature.feature")
    let rti ← pyGet sd "related_test_ids" (Json.arr [])
    let desc ← pyGet sd "description" (Json.str "")
    let fname ← pyGet sd "feature_name" desc
    let sc ← pyGet sd "scenario_count" (Json.num 0)
    pure (some ⟨"gherkin", fn, content, rti, fname, sc⟩)
  else pure none

/-- The `for` loop over parsed entries: an exception aborts the loop but
keeps the scripts appended so far (the `except` only logs). -/
def loopItems (f : Json → Except Unit (Option AutomationScript)) :
    List Json → List AutomationScript → List AutomationScript
  | [], acc => acc
  | x :: rest, acc =>
    match f x with
    | .error _ => acc
    | .ok none => loopItems f rest acc
    | .ok (some s) => loopItems f rest (acc ++ [s])

/-- `TestGenerator._parse_gherkin_scripts`. -/
def parse_gherkin_scripts (response : String) : List AutomationScript :=
  let scripts : List AutomationScript :=
    match extract_json response with
    | none => []
    | some j =>
      if jsonTruthy j then
        match pyIn "feature_files" j with
        | .error _ => []
        | .ok true =>
          match pyIndex j "feature_files" with
          | .error _ => []
          | .ok v =>
            match pyIter v with
            | .error _ => []
            | .ok items => loopItems featureFileItem items []
        | .ok false =>
          match pyIn "scripts" j with
          | .error _ => []
          | .ok true =>
            match pyIndex j "scripts" with
            | .error _ => []
            | .ok v =>
              match pyIter v with
              | .error _ => []
              | .ok items => loopItems gherkinScriptsItem items []
          | .ok false => []
      else []
  if scripts.isEmpty then extract_raw_gherkin response else scripts

/-- Loop body for a `scripts` entry in `_parse_automation_scripts`. -/
def scriptsItem (script_type : String) (sd : Json) :
    Except Unit (Option AutomationScript) := do
  let content ← pyGet sd "content" (Json.str "")
  if jsonTruthy content then
    let fn ← pyGet sd "filename" (Json.str ("test." ++ script_type))
    let rti ← pyGet sd "related_test_ids" (Json.arr [])
    let desc ← pyGet sd "description" (Json.str "")
    pure (some ⟨script_type, fn, content, rti, desc, Json.num 0⟩)
  else pure none

/-- Loop body for the alternate `feature_files` key in
`_parse_automation_scripts`. -/
def featureFilesItemAsScript (script_type : String) (sd : Json) :
    Except Unit (Option AutomationScript) := do
  let content ← pyGet sd "content" (Json.str "")
  if jsonTruthy content then
    let fn ← pyGet sd "filename" (Json.str ("test." ++ script_type))
    let rti ← pyGet sd "related_test_ids" (Json.arr [])
    let fallbackName ← pyGet sd "feature_name" (Json.str "")
    let desc ← pyGet sd "description" fallbackName
    pure (some ⟨script_type, fn, content, rti, desc, Json.num 0⟩)
  else pure none

/-! `_extract_raw_code_blocks`: `re.findall` of
```` ```(?:lang1|lang2|…)?\s*\n(.*?)``` ```` with DOTALL and IGNORECASE. -/

/-- `\s*\n` with greedy backtracking: the consumed prefix ends right
after the *last* newline inside the leading whitespace run. -/
def wsNewlineConsume (cs : List Char) : Option Nat :=
  let w := countLeading isRegexWs cs
  match (cs.take w).reverse.findIdx? (fun c => c = '\n') with
  | none => none
  | some rj => some (w - rj)

/-- One alternation branch: the (lowercase) language tag matched
case-insensitively, then `\s*\n`, then the lazy group up to the first
```` ``` ````.  Returns the group and the number of chars consumed. -/
def tryLangAlt (lang : List Char) (cs : List Char) : Option (List Char × Nat) :=
  if lang.isPrefixOf ((cs.take lang.length).map Char.toLower) then
    let rest := cs.drop lang.length
    match wsNewlineConsume rest with
    | none => none
    | some d =>
      let rest2 := rest.drop d
      match findSubPos ("```".toList) rest2 with
      | none => none
      | some k => some (rest2.take k, lang.length + d + k + 3)
  else none

/-- Try the alternation branches in the regex's order, then the empty
branch (no language tag). -/
def tryAlts (langs : List (List Char)) (cs : List Char) : Option (List Char × Nat) :=
  match langs with
  | [] => none
  | l :: rest =>
    match tryLangAlt l cs with
    | some r => some r
    | none => tryAlts rest cs

/-- Head-match of the full fenced-code pattern. -/
def tryCodeBlockAt (langs : List (List Char)) (cs : List Char) :
    Option (List Char × Nat) :=
  if ("```".toList).isPrefixOf cs then
    match tryAlts (langs ++ [[]]) (cs.drop 3) with
    | some (grp, consumed) => some (grp, 3 + consumed)
    | none => none
  else none

def codeBlockFindallGo (langs : List (List Char)) : Nat → List Char → List (List Char)
  | 0, _ => []
  | _, [] => []
  | fuel + 1, c :: rest =>
    match tryCodeBlockAt langs (c :: rest) with
    | some (grp, consumed) =>
      grp :: codeBlockFindallGo langs fuel ((c :: rest).drop consumed)
    | none => codeBlockFindallGo langs fuel rest

def codeBlockFindall (langs : List (List Char)) (cs : List Char) : List (List Char) :=
  codeBlockFindallGo langs cs.length cs

/-- Python `str.capitalize()`. -/
def pyCapitalize (s : String) : String :=
  match s.toList with
  | [] => ""
  | c :: rest => (c.toUpper :: rest.map Char.toLower).asString

def seleniumHints : List (List Char) := [("python").toList, ("py").toList]

def playwrightHints : List (List Char) :=
  [("javascript").toList, ("js").toList, ("typescript").toList, ("ts").toList]

def seleniumIndicators : List (List Char) :=
  [("import").toList, ("def test_").toList, ("class Test").toList,
   ("selenium").toList, ("webdriver").toList]

def playwrightIndicators : List (List Char) :=
  [("test(").toList, ("expect(").toList, ("page.").toList,
   ("playwright").toList, ("require(").toList, ("import ").toList]

/-- `TestGenerator._extract_raw_code_blocks`. -/
def extract_raw_code_blocks (response : String) (script_type : String) :
    List AutomationScript :=
  let langs := if script_type = "selenium" then seleniumHints else playwrightHints
  let fileExt := if script_type = "selenium" then ".py" else ".spec.js"
  let indicators :=
    if script_type = "selenium" then seleniumIndicators else playwrightIndicators
  ((codeBlockFindall langs response.toList).enum).filterMap (fun p =>
    let code := stripChars p.2
    if !code.isEmpty && indicators.any (fun ind => containsSub ind code) then
      some ⟨script_type,
            Json.str ("test_generated_" ++ (natDigits (p.1 + 1)).asString ++ fileExt),
            Json.str code.asString, Json.arr [],
            Json.str ("Generated " ++ pyCapitalize script_type ++ " test " ++
              (natDigits (p.1 + 1)).asString),
            Json.num 0⟩
    else none)

/-- `TestGenerator._parse_automation_scripts`. -/
def parse_automation_scripts (response : String) (script_type : String) :
    List AutomationScript :=
  let scripts : List AutomationScript :=
    match extract_json response with
    | none => []
    | some j =>
      if jsonTruthy j then
        match pyIn "scripts" j with
        | .error _ => []
        | .ok true =>
          match pyIndex j "scripts" with
          | .error _ => []
          | .ok v =>
            match pyIter v with
            | .error _ => []
            | .ok items => loopItems (scriptsItem script_type) items []
        | .ok false =>
          match pyIn "feature_files" j with
          | .error _ => []
          | .ok true =>
            match pyIndex j "feature_files" with
            | .error _ => []
            | .ok v =>
              match pyIter v with
              | .error _ => []
              | .ok items => loopItems (featureFilesItemAsScript script_type) items []
          | .ok false => []
      else []
  if scripts.isEmpty then extract_raw_code_blocks response script_type else scripts

/-! ### Prompt templates (src/templates/prompts.py)

The template constants are transcribed with the `str.format` placeholders
split out and the `\x7b\x7b`/`\x7d\x7d` escapes already collapsed to
literal braces, exactly as `format` renders them. -/

def SYSTEM_PROMPT : String :=
  "You are an expert QA Engineer. Generate comprehensive test cases in valid JSON format.\nAlways include: positive tests, negative tests, edge cases, and boundary tests.\nAssign priority (High/Medium/Low) based on business impact."

/-- `MANUAL_TEST_GENERATION` up to `\x7brequirements\x7d`. -/
def MT_P1 : String := "Generate manual test cases for these requirements:\n\n"

/-- `MANUAL_TEST_GENERATION` between `\x7bclient_context\x7d` and
`\x7badditional_instructions\x7d`. -/
def MT_P3 : String :=
  "\n\nReturn ONLY valid JSON in this exact format:\n\x7b\n  \"test_cases\": [\n    \x7b\n      \"test_id\": \"TC_001\",\n      \"test_name\": \"Brief descriptive name\",\n      \"description\": \"What this test verifies\",\n      \"preconditions\": [\"condition1\", \"condition2\"],\n      \"test_steps\": [\n        \x7b\"step_number\": 1, \"action\": \"Do something\", \"test_data\": \"data\", \"expected_result\": \"Result\"\x7d\n      ],\n      \"expected_results\": [\"Final outcome 1\", \"Final outcome 2\"],\n      \"priority\": \"High\",\n      \"category\": \"Functional\",\n      \"tags\": [\"tag1\", \"tag2\"]\n    \x7d\n  ]\n\x7d\n\nGenerate 5-10 test cases covering:\n"

/-- `MANUAL_TEST_GENERATION` tail. -/
def MT_P4 : String := "\n\nReturn ONLY the JSON, no other text."

/-- The conditionally assembled instruction lines (baseline always
present, then negative / edge / boundary in the source's order). -/
def additionalInstructions
    (include_edge_cases include_negative include_boundary : Bool) : String :=
  String.intercalate "\n"
    (["- Positive/functional tests"]
      ++ (if include_negative then ["- Negative tests (invalid inputs, errors)"] else [])
      ++ (if include_edge_cases then ["- Edge cases"] else [])
      ++ (if include_boundary then ["- Boundary value tests"] else []))

/-- `req_text = requirements[:3000] if len(requirements) > 3000 else requirements`. -/
def manualReqText (requirements : String) : String :=
  if requirements.length > 3000 then strTake requirements 3000 else requirements

/-- The client-context block: present only when the context is truthy and
nonblank, truncated to 1000 chars. -/
def manualCtxBlock (client_context : String) : String :=
  if !client_context.isEmpty && !(pyStrip client_context).isEmpty then
    "\nClient context:\n" ++ strTake client_context 1000
  else ""

/-- `PromptTemplates.get_manual_test_prompt`. -/
def get_manual_test_prompt (requirements client_context : String)
    (include_edge_cases include_negative include_boundary : Bool) : String :=
  MT_P1 ++ manualReqText requirements ++ "\n\n" ++ manualCtxBlock client_context
    ++ MT_P3
    ++ additionalInstructions include_edge_cases include_negative include_boundary
    ++ MT_P4

def GH_P1 : String := "Convert these test cases to Gherkin format:\n\n"

def GH_P2 : String := "\n\nRequirements: "

def GH_P3 : String :=
  "\n\nReturn ONLY valid JSON:\n\x7b\n  \"feature_files\": [\n    \x7b\n      \"filename\": \"feature_name.feature\",\n      \"feature_name\": \"Feature Name\",\n      \"content\": \"Feature: Name\\n  Scenario: Test\\n    Given...\\n    When...\\n    Then...\",\n      \"scenario_count\": 3,\n      \"related_test_ids\": [\"TC_001\"]\n    \x7d\n  ]\n\x7d\n\nReturn ONLY the JSON, no other text."

/-- `PromptTemplates.get_gherkin_prompt` (its `client_context` parameter
is unused by the source builder). -/
def get_gherkin_prompt (manual_tests requirements_summary _client_context : String) :
    String :=
  let tests := if manual_tests.length > 2000 then strTake manual_tests 2000
    else manual_tests
  let summary := if requirements_summary.length > 500 then strTake requirements_summary 500
    else requirements_summary
  GH_P1 ++ tests ++ GH_P2 ++ summary ++ GH_P3

def SEL_P1 : String := "Generate Selenium Python tests for:\n\n"

/-- Tail of `SELENIUM_GENERATION` (the template has no
`\x7brequirements_summary\x7d` placeholder; the builder's extra format
argument is simply unused). -/
def SEL_P2 : String :=
  "\n\nReturn ONLY valid JSON:\n\x7b\n  \"scripts\": [\n    \x7b\n      \"filename\": \"test_feature.py\",\n      \"content\": \"import pytest\\nfrom selenium import webdriver\\n\\nclass TestFeature:\\n    def test_case(self):\\n        pass\",\n      \"related_test_ids\": [\"TC_001\"],\n      \"description\": \"Feature tests\"\n    \x7d\n  ]\n\x7d\n\nUse pytest, explicit waits, Page Object Model. Return ONLY JSON."

/-- `PromptTemplates.get_selenium_prompt`. -/
def get_selenium_prompt (manual_tests _requirements_summary _client_context : String) :
    String :=
  let tests := if manual_tests.length > 2000 then strTake manual_tests 2000
    else manual_tests
  SEL_P1 ++ tests ++ SEL_P2

def PW_P1 : String := "Generate Playwright JavaScript tests for:\n\n"

/-- Tail of `PLAYWRIGHT_GENERATION`. -/
def PW_P2 : String :=
  "\n\nReturn ONLY valid JSON:\n\x7b\n  \"scripts\": [\n    \x7b\n      \"filename\": \"feature.spec.js\",\n      \"content\": \"const \x7b\x7b test, expect \x7d\x7d = require(\x27@playwright/test\x27);\\n\\ntest(\x27test name\x27, async (\x7b\x7b page \x7d\x7d) => \x7b\x7b\\n  // test code\\n\x7d\x7d);\",\n      \"related_test_ids\": [\"TC_001\"],\n      \"description\": \"Feature tests\"\n    \x7d\n  ]\n\x7d\n\nUse @playwright/test, async/await, proper locators. Return ONLY JSON."

/-- `PromptTemplates.get_playwright_prompt`. -/
def get_playwright_prompt (manual_tests _requirements_summary _client_context : String) :
    String :=
  let tests := if manual_tests.length > 2000 then strTake manual_tests 2000
    else manual_tests
  PW_P1 ++ tests ++ PW_P2

/-! ### Requirement, client context, settings (models/requirement.py,
models/client_context.py, config/settings.py) -/

/-- `str.replace(pat, rep)`: replace all non-overlapping occurrences,
scanning left to right (`pat` nonempty in all uses here). -/
def replaceAllGo (pat rep : List Char) : Nat → List Char → List Char
  | 0, cs => cs
  | _, [] => []
  | fuel + 1, c :: rest =>
    if pat.isPrefixOf (c :: rest) && !pat.isEmpty then
      rep ++ replaceAllGo pat rep fuel ((c :: rest).drop pat.length)
    else c :: replaceAllGo pat rep fuel rest

def replaceAll (s pat rep : String) : String :=
  (replaceAllGo pat.toList rep.toList s.toList.length s.toList).asString

/-- Python `str.title()`: letters following a non-letter are uppercased,
letters following a letter are lowercased. -/
def titleGo : Bool → List Char → List Char
  | _, [] => []
  | prevAlpha, c :: rest =>
    let isAl := c.isAlpha
    (if isAl then (if prevAlpha then c.toLower else c.toUpper) else c)
      :: titleGo isAl rest

def pyTitle (s : String) : String := (titleGo false s.toList).asString

/-- The two `Requirement` fields the pipeline reads. -/
structure Requirement where
  filename : String
  content : String
deriving DecidableEq, Repr

/-- `Requirement.get_display_name`. -/
def Requirement.get_display_name (r : Requirement) : String :=
  let n1 := replaceAll r.filename ".txt" ""
  let n2 := replaceAll n1 ".pdf" ""
  let n3 := replaceAll n2 ".docx" ""
  let n4 := replaceAll n3 ".doc" ""
  pyTitle (replaceAll (replaceAll n4 "_" " ") "-" " ")

/-- Client context is an external collaborator (spec §3): the pipeline
consumes only its `name` and the serialized text form
`get_context_text()` returns, so that text is modelled as a stored
string. -/
structure ClientContext where
  name : String
  context_text : String
deriving DecidableEq, Repr

def contextTextOf : Option ClientContext → String
  | some c => c.context_text
  | none => ""

def clientNameOf : Option ClientContext → String
  | some c => c.name
  | none => ""

/-- The two `Settings` fields the orchestrator reads (both exist on the
settings dataclass, so `hasattr`/`getattr` take their non-default
branches). -/
structure Settings where
  ollama_model : String
  ollama_code_model : String
deriving DecidableEq, Repr

/-! ### Progress events and the orchestrator
(`TestGenerator.generate_test_suite`, src/core/test_generator.py 40-213)

Fractions are modelled in `ℚ`; the claims about them only concern
ordering of the checkpoint values, which binary floating point preserves.
The spec-level "no TestSuite is returned on failure" is modelled by the
run returning `Except.error`; the progress callback is modelled by
recording every event, and each adapter `generate` call is recorded in a
call log tagged with its stage. -/

structure GenerationProgress where
  stage : String
  progress : ℚ
  message : String
  completed : Bool
  error : Option String
deriving DecidableEq, Repr

/-- A `generate` call made to an adapter, tagged by stage. -/
structure CallRecord where
  stage : String
  model : String
  prompt : String
  system : String
deriving DecidableEq, Repr

structure StageAcc where
  events : List GenerationProgress
  calls : List CallRecord
  currentStep : Nat
deriving DecidableEq, Repr

deriving instance DecidableEq for Except

structure RunOutput where
  events : List GenerationProgress
  calls : List CallRecord
  result : Except String TestSuite
deriving DecidableEq, Repr

/-- `step_progress`: `min(current_step/total + (1/total)*sub, 0.99)`. -/
def stepEvent (total current : Nat) (stage msg : String) (sub : ℚ) :
    GenerationProgress :=
  ⟨stage, min ((current : ℚ) / (total : ℚ) + 1 / (total : ℚ) * sub) (99 / 100),
   msg, false, none⟩

/-- The event emitted by the `except` handler before re-raising. -/
def errorEvent (e : String) : GenerationProgress :=
  ⟨"error", 0, "Generation failed", true, some e⟩

/-- `ManualTestCase.to_dict` (field order of the dataclass). -/
def TestStep.to_dict (s : TestStep) : Json :=
  Json.obj [("step_number", s.step_number), ("action", s.action),
            ("test_data", s.test_data), ("expected_result", s.expected_result)]

def ManualTestCase.to_dict (t : ManualTestCase) : Json :=
  Json.obj [("test_id", t.test_id), ("test_name", t.test_name),
            ("description", t.description), ("preconditions", t.preconditions),
            ("test_steps", Json.arr (t.test_steps.map TestStep.to_dict)),
            ("expected_results", t.expected_results), ("priority", t.priority),
            ("category", t.category), ("status", t.status), ("tags", t.tags),
            ("notes", t.notes)]

def escapeJChar (c : Char) : String :=
  if c = '"' then "\\\"" else if c = '\\' then "\\\\"
  else if c = '\n' then "\\n" else if c = '\t' then "\\t"
  else if c = '\r' then "\\r" else String.mk [c]

def escapeJString (s : String) : String :=
  "\"" ++ String.join (s.toList.map escapeJChar) ++ "\""

mutual

/-- Serialization standing in for `json.dumps(·, indent=2)`; whitespace
layout is immaterial (the result is only embedded opaquely in prompts). -/
def dumpJson : Json → String
  | Json.null => "null"
  | Json.bool b => if b then "true" else "false"
  | Json.num n => toString n
  | Json.str s => escapeJString s
  | Json.arr xs => "[" ++ String.intercalate ", " (dumpJsonList xs) ++ "]"
  | Json.obj kvs => "\x7b" ++ String.intercalate ", " (dumpJsonKV kvs) ++ "\x7d"

def dumpJsonList : List Json → List String
  | [] => []
  | x :: xs => dumpJson x :: dumpJsonList xs

def dumpJsonKV : List (String × Json) → List String
  | [] => []
  | (k, v) :: kvs => (escapeJString k ++ ": " ++ dumpJson v) :: dumpJsonKV kvs

end

/-- `json.dumps([t.to_dict() for t in manual_tests[:10]], indent=2)`. -/
def jsonDumpsTests (ts : List ManualTestCase) : String :=
  dumpJson (Json.arr (ts.map ManualTestCase.to_dict))

/-- Python `+` between the running `sum` and a `scenario_count` value:
ints and bools add, anything else raises `TypeError` (message modelled). -/
def intOfJsonAdd : Json → Except String Int
  | Json.num n => .ok n
  | Json.bool b => .ok (if b then 1 else 0)
  | _ => .error "unsupported operand type for +"

/-- `sum(s.scenario_count for s in gherkin_scripts)`. -/
def sumScenarioCounts : List AutomationScript → Except String Int
  | [] => .ok 0
  | s :: rest => do
    let n ← intOfJsonAdd s.scenario_count
    let m ← sumScenarioCounts rest
    pure (n + m)

/-- The success message of the Gherkin stage (the scenario sum can raise). -/
def gherkinOkMsg (ss : List AutomationScript) : Except String String := do
  let n ← sumScenarioCounts ss
  pure ("✅ Generated " ++ toString ss.length ++ " Gherkin feature file(s) with "
    ++ toString n ++ " scenarios")

/-- One optional stage of `generate_test_suite`: two checkpoint events
(sub-fractions 0 and 0.2), the adapter call, then on success the parsed
scripts with a 0.95 checkpoint whose message may itself raise (Gherkin
scenario sum); on failure the exception propagates with the events
emitted so far.  When the flag is off nothing happens and the suite
field keeps its empty default. -/
def runOptionalStage (flag : Bool) (adapter : String → String → Except String String)
    (tag modelName sys prompt preMsg1 preMsg2 : String)
    (parser : String → List AutomationScript)
    (okMsg : List AutomationScript → Except String String)
    (emptyMsg : String) (total : Nat) (acc : StageAcc) :
    StageAcc × Except String (List AutomationScript) :=
  if flag then
    let ev1 := stepEvent total acc.currentStep tag preMsg1 0
    let ev2 := stepEvent total acc.currentStep tag preMsg2 (2 / 10)
    let call : CallRecord := ⟨tag, modelName, prompt, sys⟩
    match adapter prompt sys with
    | .error e =>
      (⟨acc.events ++ [ev1, ev2], acc.calls ++ [call], acc.currentStep⟩, .error e)
    | .ok resp =>
      let scripts := parser resp
      match (if scripts.isEmpty then .ok emptyMsg else okMsg scripts) with
      | .error e =>
        (⟨acc.events ++ [ev1, ev2], acc.calls ++ [call], acc.currentStep⟩, .error e)
      | .ok msg3 =>
        (⟨acc.events ++ [ev1, ev2, stepEvent total acc.currentStep tag msg3 (95 / 100)],
          acc.calls ++ [call], acc.currentStep + 1⟩, .ok scripts)
  else (acc, .ok [])

/-- The Gherkin-stage prompt as the orchestrator builds it from the
manual-stage response. -/
def gherkinPromptOf (requirement : Requirement)
    (client_context : Option ClientContext) (resp : String) : String :=
  get_gherkin_prompt (jsonDumpsTests ((parse_manual_tests resp).take 10))
    (strTake requirement.content 2000) (contextTextOf client_context)

/-- The Selenium-stage prompt as the orchestrator builds it. -/
def seleniumPromptOf (requirement : Requirement)
    (client_context : Option ClientContext) (resp : String) : String :=
  get_selenium_prompt (jsonDumpsTests ((parse_manual_tests resp).take 10))
    (strTake requirement.content 2000) (contextTextOf client_context)

/-- The Playwright-stage prompt as the orchestrator builds it. -/
def playwrightPromptOf (requirement : Requirement)
    (client_context : Option ClientContext) (resp : String) : String :=
  get_playwright_prompt (jsonDumpsTests ((parse_manual_tests resp).take 10))
    (strTake requirement.content 2000) (contextTextOf client_context)

/-- `TestGenerator.generate_test_suite`.  `llm` and `code_llm` are the
two adapter `generate` functions (raising modelled as `Except.error`
carrying `str(e)`), `now` the `datetime.now().isoformat()` value. -/
def generate_test_suite (settings : Settings)
    (llm code_llm : String → String → Except String String)
    (requirement : Requirement) (client_context : Option ClientContext)
    (generate_gherkin generate_selenium generate_playwright : Bool)
    (include_edge_cases include_negative include_boundary : Bool)
    (now : String) : RunOutput :=
  let context_text := contextTextOf client_context
  let total := 1 + (if generate_gherkin then 1 else 0)
    + (if generate_selenium then 1 else 0) + (if generate_playwright then 1 else 0)
  let mPrompt := get_manual_test_prompt requirement.content context_text
    include_edge_cases include_negative include_boundary
  let mCall : CallRecord := ⟨"manual", "llm", mPrompt, SYSTEM_PROMPT⟩
  let ev0 := [stepEvent total 0 "manual"
      ("📄 Reading requirements document: " ++ requirement.filename ++ "...") 0,
    stepEvent total 0 "manual"
      "🔍 Analyzing requirements and identifying test scenarios..." (15 / 100),
    stepEvent total 0 "manual"
      ("🤖 Sending to LLM (" ++ settings.ollama_model
        ++ ") for manual test case generation...") (25 / 100)]
  match llm mPrompt SYSTEM_PROMPT with
  | .error e => ⟨ev0 ++ [errorEvent e], [mCall], .error e⟩
  | .ok resp =>
    let manual_tests := parse_manual_tests resp
    let ev1 := ev0
      ++ [stepEvent total 0 "manual"
            ("✅ Generated " ++ toString manual_tests.length
              ++ " manual test cases — parsing results...") (90 / 100)]
      ++ (if manual_tests.isEmpty then
            [stepEvent total 0 "manual"
              "⚠️ Warning: No manual tests were parsed from LLM response. Check model output." 1]
          else [])
    let tci := "(based on " ++ toString manual_tests.length ++ " manual tests)"
    let acc1 : StageAcc := ⟨ev1, [mCall], 1⟩
    match runOptionalStage generate_gherkin llm "gherkin" "llm" SYSTEM_PROMPT
        (gherkinPromptOf requirement client_context resp)
        ("📝 Preparing Gherkin BDD feature file generation " ++ tci ++ "...")
        "🤖 Sending to LLM for Gherkin conversion — converting manual tests to Given/When/Then format..."
        parse_gherkin_scripts gherkinOkMsg
        "⚠️ Gherkin generation returned empty — LLM response could not be parsed into feature files"
        total acc1 with
    | (acc2, .error e) => ⟨acc2.events ++ [errorEvent e], acc2.calls, .error e⟩
    | (acc2, .ok gherkin_scripts) =>
      match runOptionalStage generate_selenium code_llm "selenium" "code_llm"
          SYSTEM_PROMPT
          (seleniumPromptOf requirement client_context resp)
          ("🐍 Preparing Selenium Python script generation " ++ tci ++ "...")
          ("🤖 Sending to CodeLlama (" ++ settings.ollama_code_model
            ++ ") — generating pytest + Selenium scripts with Page Object Model...")
          (fun r => parse_automation_scripts r "selenium")
          (fun ss => .ok ("✅ Generated " ++ toString ss.length
            ++ " Selenium Python test script(s)"))
          "⚠️ Selenium generation returned empty — CodeLlama response could not be parsed"
          total acc2 with
      | (acc3, .error e) => ⟨acc3.events ++ [errorEvent e], acc3.calls, .error e⟩
      | (acc3, .ok selenium_scripts) =>
        match runOptionalStage generate_playwright code_llm "playwright" "code_llm"
            SYSTEM_PROMPT
            (playwrightPromptOf requirement client_context resp)
            ("🎭 Preparing Playwright JavaScript test generation " ++ tci ++ "...")
            ("🤖 Sending to CodeLlama (" ++ settings.ollama_code_model
              ++ ") — generating @playwright/test specs with async/await...")
            (fun r => parse_automation_scripts r "playwright")
            (fun ss => .ok ("✅ Generated " ++ toString ss.length
              ++ " Playwright test spec(s)"))
            "⚠️ Playwright generation returned empty — CodeLlama response could not be parsed"
            total acc3 with
        | (acc4, .error e) => ⟨acc4.events ++ [errorEvent e], acc4.calls, .error e⟩
        | (acc4, .ok playwright_scripts) =>
          let summary_parts := [toString manual_tests.length ++ " manual tests"]
            ++ (if generate_gherkin then
                  [toString gherkin_scripts.length ++ " Gherkin files"] else [])
            ++ (if generate_selenium then
                  [toString selenium_scripts.length ++ " Selenium scripts"] else [])
            ++ (if generate_playwright then
                  [toString playwright_scripts.length ++ " Playwright specs"] else [])
          let completeEv : GenerationProgress :=
            ⟨"complete", 1,
             "🎉 Complete! Generated " ++ String.intercalate ", " summary_parts,
             false, none⟩
          ⟨acc4.events ++ [completeEv], acc4.calls,
           .ok ⟨requirement.get_display_name,
                "Test suite generated from " ++ requirement.filename,
                manual_tests, gherkin_scripts, selenium_scripts, playwright_scripts,
                clientNameOf client_context, requirement.filename, now⟩⟩

/-! ### Auxiliary definitions for the theorems -/

/-- Value of a most-significant-first decimal digit list (inverse of
`natDigits`, used to prove the generated test ids distinct). -/
def digitsVal (cs : List Char) : Nat :=
  cs.foldl (fun a c => a * 10 + digitVal c) 0

/-- Modelled from the claim's words for C8: blocks run "from each
`Feature:` keyword up to the next `Feature:` or end of text" — i.e. the
next occurrence *anywhere*, not only after a newline.  Compare
`blockRest`, which is what the code's `(?=\nFeature:|\Z)` lookahead does. -/
def blockRestClaimed : List Char → Nat
  | [] => 0
  | c :: rest =>
    if featureKw.isPrefixOf (c :: rest) then 0
    else 1 + blockRestClaimed rest

/-- Modelled from the claim's words (see `blockRestClaimed`). -/
def claimedFeatureBlocksGo : Nat → List Char → List (List Char)
  | 0, _ => []
  | _, [] => []
  | fuel + 1, c :: rest =>
    if featureKw.isPrefixOf (c :: rest) then
      let len := 8 + blockRestClaimed ((c :: rest).drop 8)
      (c :: rest).take len :: claimedFeatureBlocksGo fuel ((c :: rest).drop len)
    else claimedFeatureBlocksGo fuel rest

/-- Modelled from the claim's words (see `blockRestClaimed`). -/
def claimedFeatureBlocks (cs : List Char) : List (List Char) :=
  claimedFeatureBlocksGo cs.length cs

/-- The Gherkin Tier-3 fallback as the claim words its block splitting,
everything else unchanged (refinement comparison definition). -/
def claimed_extract_raw_gherkin (response : String) : List AutomationScript :=
  ((claimedFeatureBlocks response.toList).enum).filterMap
    (fun p => mkGherkinFromBlock p.1 p.2)

/-- The `Except` outcome of one optional stage, as a function of the
quantities it actually depends on (not the accumulator or the step
totals, which only shape events). -/
def stageResult (flag : Bool) (adapter : String → String → Except String String)
    (prompt sys : String) (parser : String → List AutomationScript)
    (okMsg : List AutomationScript → Except String String) (emptyMsg : String) :
    Except String (List AutomationScript) :=
  if flag then
    match adapter prompt sys with
    | .error e => .error e
    | .ok resp =>
      match (if (parser resp).isEmpty then Except.ok emptyMsg else okMsg (parser resp)) with
      | .error e => .error e
      | .ok _ => .ok (parser resp)
  else .ok []

/-- The suite with the Gherkin list emptied and every other field kept
(used to state the frame property of the `generate_gherkin` flag). -/
def suiteWithoutGherkin (s : TestSuite) : TestSuite :=
  ⟨s.name, s.description, s.manual_tests, [], s.selenium_scripts,
   s.playwright_scripts, s.client_name, s.requirement_source, s.generated_at⟩

/-- The suite with the Selenium list emptied and every other field kept. -/
def suiteWithoutSelenium (s : TestSuite) : TestSuite :=
  ⟨s.name, s.description, s.manual_tests, s.gherkin_scripts, [],
   s.playwright_scripts, s.client_name, s.requirement_source, s.generated_at⟩

/-- The suite with the Playwright list emptied and every other field kept. -/
def suiteWithoutPlaywright (s : TestSuite) : TestSuite :=
  ⟨s.name, s.description, s.manual_tests, s.gherkin_scripts,
   s.selenium_scripts, [], s.client_name, s.requirement_source, s.generated_at⟩

/-! ## Theorems -/

theorem length_asString (l : List Char) : l.asString.length = l.length := rfl

theorem toList_length (s : String) : s.toList.length = s.length := rfl

/-- C1 (amended): a response in which Tier-1 extraction recovers nothing
(`_extract_json` returns `None`) makes `_parse_manual_tests` return the
empty list — nothing raises on that path, so the `except` branch that
would build the placeholder test case never runs. -/
theorem c1_no_json_yields_empty (response : String)
    (h : extract_json response = none) :
    parse_manual_tests response = [] := by
  simp only [parse_manual_tests, h]

theorem c1_witness :
    extract_json "The model said nothing useful." = none
      ∧ parse_manual_tests "The model said nothing useful." = [] :=
  ⟨by decide, c1_no_json_yields_empty "The model said nothing useful." (by decide)⟩

/-- C1 (counterexample): a concrete response with no recoverable JSON for
which the manual-test parser returns the empty list, not one placeholder
test case. -/
theorem c1_counterexample :
    extract_json "The model returned no JSON at all." = none
      ∧ parse_manual_tests "The model returned no JSON at all." = []
      ∧ ¬ (parse_manual_tests "The model returned no JSON at all.").length = 1 := by
  refine ⟨by decide, by decide, by decide⟩

/-- C3 (amended): `_extract_json` tries, in order, (1) a JSON object in a
fenced code block, (2) the span from the first `\x7b` to the *last*
`\x7d` of the text (the greedy regex — not the first balanced span the
spec describes), (3) the whole text; it returns the first attempt that
parses and `none` (no exception) when all three fail.  The closed
conjuncts instantiate the cascade: a fenced block, JSON embedded in
prose, a bare JSON text, and a JSON-free text. -/
theorem c3_tier1_cascade :
    (∀ t : String, ∀ j : Json, tier1Fenced t.toList = some j →
        extract_json t = some j)
    ∧ (∀ t : String, ∀ j : Json, tier1Fenced t.toList = none →
        tier1Span t.toList = some j → extract_json t = some j)
    ∧ (∀ t : String, tier1Fenced t.toList = none → tier1Span t.toList = none →
        extract_json t = jsonLoads t.toList)
    ∧ extract_json "```json\n\x7b\"test_cases\": []\x7d\n```"
        = some (Json.obj [("test_cases", Json.arr [])])
    ∧ extract_json "The cases are \x7b\"a\": 1\x7d as requested."
        = some (Json.obj [("a", Json.num 1)])
    ∧ extract_json "\x7b\"a\": 1\x7d" = some (Json.obj [("a", Json.num 1)])
    ∧ extract_json "no json here" = none := by
  refine ⟨?_, ?_, ?_, by decide, by decide, by decide, by decide⟩
  · intro t j h
    simp only [extract_json, h]
  · intro t j h1 h2
    simp only [extract_json, h1, h2]
  · intro t h1 h2
    simp only [extract_json, h1, h2]

/-- C3 (counterexample): on `\x7b"a": 1\x7d \x7d` the code's greedy
second attempt grabs the span up to the final stray `\x7d` (which does
not parse) and the whole text does not parse either, so `_extract_json`
recovers nothing; the first *balanced* span the claim describes would
recover the object. -/
theorem c3_counterexample :
    extract_json "\x7b\"a\": 1\x7d \x7d" = none
      ∧ extract_json_claimed "\x7b\"a\": 1\x7d \x7d"
          = some (Json.obj [("a", Json.num 1)])
      ∧ ¬ extract_json "\x7b\"a\": 1\x7d \x7d"
          = extract_json_claimed "\x7b\"a\": 1\x7d \x7d" := by
  refine ⟨by decide, by decide, by decide⟩

/-! ### Characterising the record mapping of `_parse_manual_tests` -/

theorem parseStep_obj (n : Nat) (kvs : List (String × Json)) :
    parseStep n (Json.obj kvs) = .ok (mkStepClean n (Json.obj kvs)) := rfl

theorem parseStep_err (n : Nat) (sd : Json) (h : stepRecordOk sd = false) :
    parseStep n sd = .error () := by
  cases sd <;> first
    | rfl
    | simp [stepRecordOk] at h

theorem buildSteps_ok (items : List Json) (acc : List TestStep)
    (h : ∀ it ∈ items, stepRecordOk it) :
    buildSteps items acc
      = .ok (acc ++ (items.enumFrom acc.length).map (fun p => mkStepClean p.1 p.2)) := by
  induction items generalizing acc with
  | nil => simp [buildSteps]
  | cons it rest ih =>
    have hit := h it (List.mem_cons_self it rest)
    obtain ⟨kvs, rfl⟩ : ∃ kvs, it = Json.obj kvs := by
      cases it <;> simp [stepRecordOk] at hit ⊢
    simp only [buildSteps, parseStep_obj,
      ih (acc ++ [mkStepClean acc.length (Json.obj kvs)])
        (fun x hx => h x (List.mem_cons_of_mem _ hx))]
    simp [List.enumFrom]

theorem buildSteps_err (items : List Json) (acc : List TestStep)
    (h : ¬ ∀ it ∈ items, stepRecordOk it) :
    buildSteps items acc = .error () := by
  induction items generalizing acc with
  | nil => simp at h
  | cons it rest ih =>
    by_cases hit : stepRecordOk it
    · obtain ⟨kvs, rfl⟩ : ∃ kvs, it = Json.obj kvs := by
        cases it <;> simp [stepRecordOk] at hit ⊢
      simp only [buildSteps, parseStep_obj]
      exact ih _ (fun hall => h (fun x hx => by
        rcases List.mem_cons.mp hx with rfl | hx2
        · simp [stepRecordOk]
        · exact hall x hx2))
    · have he : parseStep acc.length it = .error () :=
        parseStep_err _ _ (by simpa using hit)
      simp [buildSteps, he]

theorem bindOk {ε α β : Type} (a : α) (f : α → Except ε β) :
    (Except.ok a >>= f : Except ε β) = f a := rfl

theorem bindErr {ε α β : Type} (e : ε) (f : α → Except ε β) :
    (Except.error e >>= f : Except ε β) = Except.error e := rfl

theorem pureOk {ε α : Type} (a : α) : (pure a : Except ε α) = Except.ok a := rfl

theorem parseRecord_eq (n : Nat) (tc : Json) :
    parseRecord n tc
      = if recordOk tc then .ok (mkRecordClean n tc) else .error () := by
  cases tc with
  | null => rfl
  | bool b => rfl
  | num m => rfl
  | str s => rfl
  | arr xs => rfl
  | obj kvs =>
    simp only [parseRecord, pyGet, bindOk]
    rcases hIt : pyIter ((objLookup kvs "test_steps").getD (Json.arr [])) with e | items
    · cases e
      simp [bindErr, recordOk, hIt]
    · simp only [bindOk]
      by_cases hall : ∀ it ∈ items, stepRecordOk it
      · rw [buildSteps_ok items [] hall]
        simp only [bindOk, pureOk]
        simp only [recordOk, hIt, mkRecordClean, List.all_eq_true, List.enum]
        rw [if_pos hall]
        simp
      · rw [buildSteps_err items [] hall]
        have hnall : items.all stepRecordOk = false := by
          rw [Bool.eq_false_iff]
          intro hc
          exact hall (by simpa [List.all_eq_true] using hc)
        simp [bindErr, recordOk, hIt, hnall]

theorem parseRecordsLoop_eq (rs : List Json) (acc : List ManualTestCase) :
    parseRecordsLoop rs acc
      = acc ++ ((rs.filter recordOk).enumFrom acc.length).map
          (fun p => mkRecordClean p.1 p.2) := by
  induction rs generalizing acc with
  | nil => simp [parseRecordsLoop]
  | cons r rest ih =>
    by_cases hr : recordOk r
    · simp only [parseRecordsLoop, parseRecord_eq, hr, if_pos, List.filter_cons_of_pos]
      rw [ih]
      simp [List.enumFrom, hr]
    · simp only [parseRecordsLoop, parseRecord_eq, hr]
      rw [if_neg (by simp [hr]), ih]
      simp [hr, List.filter_cons_of_neg]

theorem objLookup_some_any (kvs : List (String × Json)) (k : String) (v : Json)
    (h : objLookup kvs k = some v) :
    kvs.any (fun kv => kv.1 = k) = true := by
  unfold objLookup at h
  rcases hf : kvs.reverse.find? (fun kv => kv.1 = k) with _ | kv
  · rw [hf] at h; cases h
  · have hmem := List.mem_of_find?_eq_some hf
    have hpred := List.find?_some hf
    rw [List.any_eq_true]
    exact ⟨kv, List.mem_reverse.mp hmem, hpred⟩

theorem objLookup_ne_nil (kvs : List (String × Json)) (k : String) (v : Json)
    (h : objLookup kvs k = some v) : kvs.isEmpty = false := by
  cases kvs with
  | nil => simp [objLookup, List.find?] at h
  | cons a l => rfl

theorem digitVal_digitChar (n : Nat) (h : n < 10) : digitVal (digitChar n) = n := by
  interval_cases n <;> decide

theorem digitsVal_append (xs : List Char) (c : Char) :
    digitsVal (xs ++ [c]) = digitsVal xs * 10 + digitVal c := by
  simp [digitsVal, List.foldl_append]

theorem digitsVal_natDigitsGo (fuel : Nat) :
    ∀ n : Nat, n < 10 ^ fuel → digitsVal (natDigitsGo fuel n) = n := by
  induction fuel with
  | zero =>
    intro n h
    simp at h
    simp [h, natDigitsGo, digitsVal]
  | succ fuel ih =>
    intro n h
    rw [natDigitsGo]
    split
    case isTrue h10 =>
      simp [digitsVal, digitVal_digitChar n h10]
    case isFalse h10 =>
      have hdiv : n / 10 < 10 ^ fuel := by
        apply Nat.div_lt_of_lt_mul
        rw [pow_succ] at h
        omega
      rw [digitsVal_append, ih (n / 10) hdiv,
        digitVal_digitChar _ (Nat.mod_lt _ (by omega))]
      omega

theorem digitsVal_natDigits (n : Nat) : digitsVal (natDigits n) = n := by
  have hlt : n < 10 ^ (n + 1) :=
    lt_of_lt_of_le (Nat.lt_pow_self (by norm_num) n)
      (Nat.pow_le_pow_right (by norm_num) (by omega))
  exact digitsVal_natDigitsGo (n + 1) n hlt

theorem digitsVal_cons_zero (l : List Char) : digitsVal ('0' :: l) = digitsVal l := by
  have h0 : digitVal '0' = 0 := by decide
  simp [digitsVal, List.foldl_cons, h0]

theorem digitsVal_zeros (k : Nat) (l : List Char) :
    digitsVal (List.replicate k '0' ++ l) = digitsVal l := by
  induction k with
  | zero => simp
  | succ k ih =>
    rw [List.replicate_succ, List.cons_append, digitsVal_cons_zero, ih]

theorem digitsVal_pad3 (n : Nat) : digitsVal (pad3 n) = n := by
  rw [pad3, digitsVal_zeros, digitsVal_natDigits]

theorem fallbackTestId_toList (n : Nat) :
    (fallbackTestId n).toList = 'T' :: 'C' :: '_' :: pad3 (n + 1) := rfl

theorem fallbackTestId_inj (a b : Nat) (h : fallbackTestId a = fallbackTestId b) :
    a = b := by
  have h2 := congrArg String.toList h
  rw [fallbackTestId_toList, fallbackTestId_toList] at h2
  have h3 : pad3 (a + 1) = pad3 (b + 1) := by
    injection h2 with _ h2
    injection h2 with _ h2
    injection h2 with _ h2
  have h4 := congrArg digitsVal h3
  rw [digitsVal_pad3, digitsVal_pad3] at h4
  omega

/-- The central mapping fact: when Tier-1 extraction yields an object with
a `test_cases` list, the parser output is exactly one record per mappable
input record, in order, built by `mkRecordClean` with the count of
previously-built records. -/
theorem parse_manual_tests_obj (response : String) (kvs : List (String × Json))
    (rs : List Json)
    (h1 : extract_json response = some (Json.obj kvs))
    (h2 : objLookup kvs "test_cases" = some (Json.arr rs)) :
    parse_manual_tests response
      = ((rs.filter recordOk).enum).map (fun p => mkRecordClean p.1 p.2) := by
  have hne := objLookup_ne_nil kvs "test_cases" _ h2
  have hany := objLookup_some_any kvs "test_cases" _ h2
  simp only [parse_manual_tests, h1, jsonTruthy, hne, Bool.not_false, if_true,
    pyIn, hany, pyIndex, h2, pyIter]
  rw [parseRecordsLoop_eq]
  simp [List.enum]

/-- C2: when the extracted JSON object has a `test_cases` list, the
manual-test parser emits exactly one `ManualTestCase` per mappable input
record, in input order; records that raise during mapping (non-dicts, or
dicts whose `test_steps` iterate into non-dicts) are skipped while the
rest are produced.  Each produced case copies `test_id` and `priority`
verbatim when supplied; a record missing `priority` gets `"Medium"`,
missing `category` gets `"Functional"`, missing narrative fields
(`description`, and the step fields) get `""` placeholders; step order is
the input order.  The final conjunct runs the parser on a concrete
response with one good record, one non-dict record (skipped) and one
empty record. -/
theorem c2_record_mapping :
    (∀ (response : String) (kvs : List (String × Json)) (rs : List Json),
        extract_json response = some (Json.obj kvs) →
        objLookup kvs "test_cases" = some (Json.arr rs) →
        parse_manual_tests response
            = ((rs.filter recordOk).enum).map (fun p => mkRecordClean p.1 p.2)
          ∧ (parse_manual_tests response).length = (rs.filter recordOk).length)
    ∧ (∀ (i : Nat) (rkvs : List (String × Json)) (v : Json),
        objLookup rkvs "test_id" = some v →
          (mkRecordClean i (Json.obj rkvs)).test_id = v)
    ∧ (∀ (i : Nat) (rkvs : List (String × Json)) (v : Json),
        objLookup rkvs "priority" = some v →
          (mkRecordClean i (Json.obj rkvs)).priority = v)
    ∧ (∀ (i : Nat) (rkvs : List (String × Json)),
        objLookup rkvs "priority" = none →
          (mkRecordClean i (Json.obj rkvs)).priority = Json.str "Medium")
    ∧ (∀ (i : Nat) (rkvs : List (String × Json)),
        objLookup rkvs "category" = none →
          (mkRecordClean i (Json.obj rkvs)).category = Json.str "Functional")
    ∧ (∀ (i : Nat) (rkvs : List (String × Json)),
        objLookup rkvs "description" = none →
          (mkRecordClean i (Json.obj rkvs)).description = Json.str "")
    ∧ (∀ (i : Nat) (rkvs : List (String × Json)) (items : List Json),
        objLookup rkvs "test_steps" = some (Json.arr items) →
          (mkRecordClean i (Json.obj rkvs)).test_steps
            = items.enum.map (fun p => mkStepClean p.1 p.2))
    ∧ (∀ (i : Nat) (skvs : List (String × Json)),
        objLookup skvs "action" = none →
          (mkStepClean i (Json.obj skvs)).action = Json.str "")
    ∧ parse_manual_tests
        "\x7b\"test_cases\": [\x7b\"test_id\": \"A\", \"priority\": \"High\"\x7d, 7, \x7b\x7d]\x7d"
        = [⟨Json.str "A", Json.str "Unnamed Test", Json.str "", Json.arr [], [],
            Json.arr [], Json.str "High", Json.str "Functional", Json.str "New",
            Json.arr [], Json.str ""⟩,
           ⟨Json.str "TC_002", Json.str "Unnamed Test", Json.str "", Json.arr [], [],
            Json.arr [], Json.str "Medium", Json.str "Functional", Json.str "New",
            Json.arr [], Json.str ""⟩] := by
  refine ⟨?_, ?_, ?_, ?_, ?_, ?_, ?_, ?_, by decide⟩
  · intro response kvs rs h1 h2
    have heq := parse_manual_tests_obj response kvs rs h1 h2
    refine ⟨heq, ?_⟩
    rw [heq]
    simp [List.enum_length]
  · intro i rkvs v h
    simp [mkRecordClean, h]
  · intro i rkvs v h
    simp [mkRecordClean, h]
  · intro i rkvs h
    simp [mkRecordClean, h]
  · intro i rkvs h
    simp [mkRecordClean, h]
  · intro i rkvs h
    simp [mkRecordClean, h]
  · intro i rkvs items h
    simp [mkRecordClean, h, pyIter]
  · intro i skvs h
    simp [mkStepClean, h]

/-- C6 (amended): step numbers supplied by the model's JSON are copied
verbatim (so contiguity is *not* guaranteed in general); the parser
assigns position-based numbers only to steps whose record omits
`step_number`, so when every step of a record omits it the resulting
numbers are exactly 1, 2, …, n.  The final conjunct is such a run. -/
theorem c6_step_numbering :
    (∀ (n : Nat) (kvs : List (String × Json)) (items : List Json)
        (t : ManualTestCase),
        parseRecord n (Json.obj kvs) = .ok t →
        objLookup kvs "test_steps" = some (Json.arr items) →
        (∀ it ∈ items, ∀ ikvs, it = Json.obj ikvs →
            objLookup ikvs "step_number" = none) →
        t.test_steps.map (fun s => s.step_number)
          = (List.range items.length).map (fun i => Json.num (Int.ofNat (i + 1))))
    ∧ (∀ (i : Nat) (ikvs : List (String × Json)) (v : Json),
        objLookup ikvs "step_number" = some v →
          (mkStepClean i (Json.obj ikvs)).step_number = v)
    ∧ (parse_manual_tests
        "\x7b\"test_cases\": [\x7b\"test_steps\": [\x7b\"action\": \"a\"\x7d, \x7b\"action\": \"b\"\x7d]\x7d]\x7d").map
          (fun t => t.test_steps.map (fun s => s.step_number))
        = [[Json.num 1, Json.num 2]] := by
  refine ⟨?_, ?_, by decide⟩
  · intro n kvs items t hok hsteps hnone
    rw [parseRecord_eq] at hok
    by_cases hr : recordOk (Json.obj kvs)
    · rw [if_pos hr] at hok
      have ht : t = mkRecordClean n (Json.obj kvs) := by
        cases hok
        rfl
      have hall : ∀ it ∈ items, stepRecordOk it := by
        have hx := hr
        simp only [recordOk, hsteps, Option.getD_some, pyIter,
          List.all_eq_true] at hx
        exact hx
      have hsteps_eq : (mkRecordClean n (Json.obj kvs)).test_steps
          = items.enum.map (fun p => mkStepClean p.1 p.2) := by
        simp [mkRecordClean, hsteps, pyIter]
      rw [ht, hsteps_eq]
      apply List.ext_getElem
      · simp [List.enum_length]
      · intro i h1 h2
        simp only [List.getElem_map, List.getElem_enum, List.getElem_range]
        have hlen : i < items.length := by
          simpa [List.enum_length] using h1
        have hmem := List.getElem_mem hlen
        have hobj := hall _ hmem
        obtain ⟨ikvs, hik⟩ : ∃ ikvs, items[i] = Json.obj ikvs := by
          cases hx : items[i] <;> rw [hx] at hobj <;>
            simp [stepRecordOk] at hobj ⊢
        rw [hik]
        have hnum := hnone _ hmem ikvs hik
        simp [mkStepClean, hnum]
    · rw [if_neg hr] at hok
      cases hok
  · intro i ikvs v h
    simp [mkStepClean, h]

/-- C7 (amended): `test_id` values supplied by the model's JSON are
copied verbatim, so duplicates in the model output are preserved (see the
counterexample); only records that omit `test_id` receive generated
identifiers `TC_00k`, where `k − 1` counts the records already produced,
and when every record omits `test_id` the resulting identifiers are
pairwise distinct.  The final conjunct runs the all-omitted case. -/
theorem c7_unique_ids :
    (∀ (response : String) (kvs : List (String × Json)) (rs : List Json),
        extract_json response = some (Json.obj kvs) →
        objLookup kvs "test_cases" = some (Json.arr rs) →
        (∀ r ∈ rs, ∀ rkvs, r = Json.obj rkvs →
            objLookup rkvs "test_id" = none) →
        ((parse_manual_tests response).map (fun t => t.test_id)).Nodup)
    ∧ (∀ (i : Nat) (rkvs : List (String × Json)) (v : Json),
        objLookup rkvs "test_id" = some v →
          (mkRecordClean i (Json.obj rkvs)).test_id = v)
    ∧ (parse_manual_tests
        "\x7b\"test_cases\": [\x7b\"priority\": \"High\"\x7d, \x7b\"priority\": \"Low\"\x7d]\x7d").map
          (fun t => t.test_id)
        = [Json.str "TC_001", Json.str "TC_002"] := by
  refine ⟨?_, ?_, by decide⟩
  · intro response kvs rs h1 h2 hnone
    rw [parse_manual_tests_obj response kvs rs h1 h2]
    have hids : (((rs.filter recordOk).enum).map
          (fun p => mkRecordClean p.1 p.2)).map (fun t => t.test_id)
        = (List.range (rs.filter recordOk).length).map
            (fun i => Json.str (fallbackTestId i)) := by
      apply List.ext_getElem
      · simp [List.enum_length]
      · intro i hh1 hh2
        simp only [List.getElem_map, List.getElem_enum, List.getElem_range]
        have hlen : i < (rs.filter recordOk).length := by
          simpa [List.enum_length] using hh1
        have hmem := List.getElem_mem hlen
        have hfil := List.mem_filter.mp hmem
        obtain ⟨rkvs, hik⟩ : ∃ rkvs, (rs.filter recordOk)[i] = Json.obj rkvs := by
          cases hx : (rs.filter recordOk)[i] <;> rw [hx] at hfil <;>
            simp [recordOk] at hfil ⊢
        rw [hik]
        have hnum := hnone _ hfil.1 rkvs hik
        simp [mkRecordClean, hnum]
    rw [hids]
    apply List.Nodup.map _ (List.nodup_range _)
    intro a b hab
    have : fallbackTestId a = fallbackTestId b := by
      injection hab
    exact fallbackTestId_inj a b this
  · intro i rkvs v h
    simp [mkRecordClean, h]

/-- C7 (counterexample): a response whose two records both carry
`test_id` `TC_001` is parsed into two test cases carrying the *same*
identifier — uniqueness does not hold when the model repeats ids. -/
theorem c7_counterexample :
    (parse_manual_tests
        "\x7b\"test_cases\": [\x7b\"test_id\": \"TC_001\"\x7d, \x7b\"test_id\": \"TC_001\"\x7d]\x7d").map
          (fun t => t.test_id)
        = [Json.str "TC_001", Json.str "TC_001"]
      ∧ ¬ ((parse_manual_tests
        "\x7b\"test_cases\": [\x7b\"test_id\": \"TC_001\"\x7d, \x7b\"test_id\": \"TC_001\"\x7d]\x7d").map
          (fun t => t.test_id)).Nodup := by
  refine ⟨by decide, by decide⟩

/-- C6 (counterexample): a record whose single step carries
`step_number` 7 is parsed with step number 7 kept verbatim — the numbers
are not re-assigned to be contiguous from 1. -/
theorem c6_counterexample :
    (parse_manual_tests
        "\x7b\"test_cases\": [\x7b\"test_steps\": [\x7b\"step_number\": 7\x7d]\x7d]\x7d").map
          (fun t => t.test_steps.map (fun s => s.step_number))
        = [[Json.num 7]]
      ∧ ¬ (parse_manual_tests
        "\x7b\"test_cases\": [\x7b\"test_steps\": [\x7b\"step_number\": 7\x7d]\x7d]\x7d").map
          (fun t => t.test_steps.map (fun s => s.step_number))
        = [[Json.num 1]] := by
  refine ⟨by decide, by decide⟩

/-- C8 (amended): the Tier-3 Gherkin fallback splits the raw text into
blocks running from a `Feature:` occurrence up to the next
*newline-preceded* `Feature:` or end of text (the regex lookahead is
`\nFeature:`, so a mid-line `Feature:` neither opens nor closes a block —
see the counterexample); it keeps only blocks containing `Scenario`,
derives each filename by slugifying the feature name (lowercased,
non-alphanumerics to `_`, capped at 50 chars, plus `.feature`), and sets
`scenario_count` to the number of `Scenario:`/`Scenario Outline:`
occurrences.  The closed conjunct is the spec's end-to-end scenario B:
one `Feature: Login … Scenario: …` block with no JSON yields exactly one
script with `scenario_count` 1 and filename derived from `Login`. -/
theorem c8_gherkin_fallback :
    (∀ response : String, ∀ s ∈ extract_raw_gherkin response,
        s.script_type = "gherkin"
        ∧ ∃ name content : List Char,
            s.feature_name = Json.str name.asString
            ∧ s.content = Json.str content.asString
            ∧ containsSub scenarioKw content = true
            ∧ s.filename = Json.str ((slugify name ++ (".feature").toList).asString)
            ∧ s.scenario_count = Json.num (Int.ofNat (countScenarios content)))
    ∧ extract_raw_gherkin
        "Feature: Login\nScenario: Valid login\nGiven the login page is open"
        = [⟨"gherkin", Json.str "login.feature",
            Json.str "Feature: Login\nScenario: Valid login\nGiven the login page is open",
            Json.arr [], Json.str "Login", Json.num 1⟩] := by
  refine ⟨?_, by decide⟩
  intro response s hs
  rw [extract_raw_gherkin, List.mem_filterMap] at hs
  obtain ⟨p, _, hp⟩ := hs
  simp only [mkGherkinFromBlock] at hp
  by_cases hc : (!(stripChars p.2).isEmpty
      && containsSub scenarioKw (stripChars p.2)) = true
  · rw [if_pos hc] at hp
    injection hp with hp
    subst hp
    refine ⟨rfl, ?_⟩
    refine ⟨(match featureNameOf (stripChars p.2) with
             | some nm => nm
             | none => ("Feature ").toList ++ natDigits (p.1 + 1)),
            stripChars p.2, rfl, rfl, ?_, rfl, rfl⟩
    have hc2 := hc
    simp only [Bool.and_eq_true] at hc2
    exact hc2.2
  · rw [if_neg hc] at hp
    cases hp

/-- C8 (counterexample): on a text whose second `Feature:` is not at a
line start, the code keeps one block spanning both occurrences (feature
name `A Feature: B`), while the claim's splitting — "from each
`Feature:` keyword up to the next `Feature:`" — would split there and
name the surviving block `B`. -/
theorem c8_counterexample :
    (extract_raw_gherkin "Feature: A Feature: B\nScenario: s").map
        (fun s => s.feature_name) = [Json.str "A Feature: B"]
      ∧ (claimed_extract_raw_gherkin "Feature: A Feature: B\nScenario: s").map
          (fun s => s.feature_name) = [Json.str "B"]
      ∧ ¬ extract_raw_gherkin "Feature: A Feature: B\nScenario: s"
          = claimed_extract_raw_gherkin "Feature: A Feature: B\nScenario: s" := by
  refine ⟨by decide, by decide, by decide⟩

/-- C9: the manual-test prompt builder embeds at most 3000 characters of
the requirement text — a hard cut, the embedded text being a prefix of
the input — and at most 1000 characters of the client-context text (plus
the fixed 17-character block header), so the whole prompt is bounded by
the fixed template overhead plus the two caps, and a 10000-character
requirement body embeds exactly the 3000-character cap.  Determinism
given identical inputs is inherent: the builder is embedded as a pure
function, mirroring the source's lack of randomness and I/O. -/
theorem c9_prompt_truncation :
    (∀ requirements : String, (manualReqText requirements).length ≤ 3000)
    ∧ (∀ requirements : String, ∃ rest : String,
        requirements = manualReqText requirements ++ rest)
    ∧ (∀ client_context : String,
        (manualCtxBlock client_context).length ≤ 17 + 1000)
    ∧ (∀ (requirements client_context : String) (e n b : Bool),
        (get_manual_test_prompt requirements client_context e n b).length
          ≤ MT_P1.length + 2 + MT_P3.length
            + (additionalInstructions true true true).length + MT_P4.length
            + 3000 + 1017)
    ∧ (∀ requirements : String, requirements.length = 10000 →
        (manualReqText requirements).length = 3000)
    ∧ (manualReqText (String.mk (List.replicate 10000 'a'))).length = 3000 := by
  have hTake : ∀ (s : String) (k : Nat), (strTake s k).length = min k s.length := by
    intro s k
    simp [strTake, length_asString, List.length_take, toList_length]
  have h1 : ∀ requirements : String, (manualReqText requirements).length ≤ 3000 := by
    intro s
    rw [manualReqText]
    split
    · rw [hTake]; omega
    · omega
  have h5 : ∀ requirements : String, requirements.length = 10000 →
      (manualReqText requirements).length = 3000 := by
    intro s hlen
    rw [manualReqText, if_pos (by omega), hTake]
    omega
  refine ⟨h1, ?_, ?_, ?_, h5, ?_⟩
  · intro s
    rw [manualReqText]
    split
    · refine ⟨(s.toList.drop 3000).asString, ?_⟩
      have hjoin : strTake s 3000 ++ (s.toList.drop 3000).asString
          = (s.toList.take 3000 ++ s.toList.drop 3000).asString := rfl
      rw [hjoin, List.take_append_drop]
      rfl
    · exact ⟨"", by simp⟩
  · intro c
    rw [manualCtxBlock]
    split
    · rw [String.length_append, hTake]
      have : ("\nClient context:\n").length = 17 := by decide
      omega
    · simp
  · intro reqs ctx e n b
    have hAdd : ∀ e n b : Bool, (additionalInstructions e n b).length
        ≤ (additionalInstructions true true true).length := by
      intro e n b
      cases e <;> cases n <;> cases b <;> decide
    have hCtx : (manualCtxBlock ctx).length ≤ 1017 := by
      have := (by
        rw [manualCtxBlock]
        split
        · rw [String.length_append, hTake]
          have : ("\nClient context:\n").length = 17 := by decide
          omega
        · simp : (manualCtxBlock ctx).length ≤ 17 + 1000)
      omega
    rw [get_manual_test_prompt]
    simp only [String.length_append]
    have hr := h1 reqs
    have ha := hAdd e n b
    have h2 : ("\n\n").length = 2 := by decide
    omega
  · exact h5 _ (by
      show (List.replicate 10000 'a').length = 10000
      rw [List.length_replicate])

/-! ### Orchestrator lemmas -/

theorem stepEvent_stage (total current : Nat) (st msg : String) (sub : ℚ) :
    (stepEvent total current st msg sub).stage = st := rfl

theorem runOptionalStage_events_of {flag : Bool}
    {adapter : String → String → Except String String}
    {tag modelName sys prompt p1 p2 : String}
    {parser : String → List AutomationScript}
    {okMsg : List AutomationScript → Except String String}
    {emptyMsg : String} {total : Nat} {acc acc2 : StageAcc}
    {r2 : Except String (List AutomationScript)}
    (h : runOptionalStage flag adapter tag modelName sys prompt p1 p2 parser
        okMsg emptyMsg total acc = (acc2, r2)) :
    ∃ extra : List GenerationProgress,
      acc2.events = acc.events ++ extra ∧ ∀ ev ∈ extra, ev.stage = tag := by
  cases flag with
  | false =>
    rw [runOptionalStage] at h
    simp only [Bool.false_eq_true, if_false] at h
    cases h
    exact ⟨[], by simp, by simp⟩
  | true =>
    rw [runOptionalStage] at h
    simp only [if_true] at h
    rcases ha : adapter prompt sys with e | resp <;> simp only [ha] at h
    · cases h
      refine ⟨[stepEvent total acc.currentStep tag p1 0,
               stepEvent total acc.currentStep tag p2 (2 / 10)], rfl, ?_⟩
      intro ev hev
      simp only [List.mem_cons, List.not_mem_nil, or_false] at hev
      rcases hev with rfl | rfl <;> rfl
    · rcases hm : (if (parser resp).isEmpty then Except.ok emptyMsg
          else okMsg (parser resp)) with e | m <;> simp only [hm] at h <;> cases h
      · refine ⟨[stepEvent total acc.currentStep tag p1 0,
                 stepEvent total acc.currentStep tag p2 (2 / 10)], rfl, ?_⟩
        intro ev hev
        simp only [List.mem_cons, List.not_mem_nil, or_false] at hev
        rcases hev with rfl | rfl <;> rfl
      · refine ⟨[stepEvent total acc.currentStep tag p1 0,
                 stepEvent total acc.currentStep tag p2 (2 / 10),
                 stepEvent total acc.currentStep tag m (95 / 100)], rfl, ?_⟩
        intro ev hev
        simp only [List.mem_cons, List.not_mem_nil, or_false] at hev
        rcases hev with rfl | rfl | rfl <;> rfl

theorem runOptionalStage_calls_of {flag : Bool}
    {adapter : String → String → Except String String}
    {tag modelName sys prompt p1 p2 : String}
    {parser : String → List AutomationScript}
    {okMsg : List AutomationScript → Except String String}
    {emptyMsg : String} {total : Nat} {acc acc2 : StageAcc}
    {r2 : Except String (List AutomationScript)}
    (h : runOptionalStage flag adapter tag modelName sys prompt p1 p2 parser
        okMsg emptyMsg total acc = (acc2, r2)) :
    acc2.calls = acc.calls
      ++ (if flag then [(⟨tag, modelName, prompt, sys⟩ : CallRecord)] else []) := by
  cases flag with
  | false =>
    rw [runOptionalStage] at h
    simp only [Bool.false_eq_true, if_false] at h
    cases h
    simp
  | true =>
    rw [runOptionalStage] at h
    simp only [if_true] at h
    rcases ha : adapter prompt sys with e | resp <;> simp only [ha] at h
    · cases h; simp
    · rcases hm : (if (parser resp).isEmpty then Except.ok emptyMsg
          else okMsg (parser resp)) with e | m <;> simp only [hm] at h <;>
        cases h <;> simp

theorem runOptionalStage_snd_of {flag : Bool}
    {adapter : String → String → Except String String}
    {tag modelName sys prompt p1 p2 : String}
    {parser : String → List AutomationScript}
    {okMsg : List AutomationScript → Except String String}
    {emptyMsg : String} {total : Nat} {acc acc2 : StageAcc}
    {r2 : Except String (List AutomationScript)}
    (h : runOptionalStage flag adapter tag modelName sys prompt p1 p2 parser
        okMsg emptyMsg total acc = (acc2, r2)) :
    r2 = stageResult flag adapter prompt sys parser okMsg emptyMsg := by
  cases flag with
  | false =>
    rw [runOptionalStage] at h
    simp only [Bool.false_eq_true, if_false] at h
    cases h
    rfl
  | true =>
    rw [runOptionalStage] at h
    rw [stageResult]
    simp only [if_true] at h ⊢
    rcases ha : adapter prompt sys with e | resp <;> simp only [ha] at h ⊢
    · cases h; rfl
    · rcases hm : (if (parser resp).isEmpty then Except.ok emptyMsg
          else okMsg (parser resp)) with e | m <;> simp only [hm] at h ⊢ <;>
        cases h <;> rfl

theorem mem_manual_events {ev : GenerationProgress} {total : Nat}
    {m1 m2 m3 m4 : String} {cond : Bool} {warn : String}
    (h : ev ∈ ([stepEvent total 0 "manual" m1 0,
            stepEvent total 0 "manual" m2 (15 / 100),
            stepEvent total 0 "manual" m3 (25 / 100)]
          ++ [stepEvent total 0 "manual" m4 (90 / 100)]
          ++ (if cond then [stepEvent total 0 "manual" warn 1] else []))) :
    ev.stage = "manual" := by
  rcases List.mem_append.mp h with h2 | h2
  · rcases List.mem_append.mp h2 with h3 | h3
    · simp only [List.mem_cons, List.not_mem_nil, or_false] at h3
      rcases h3 with rfl | rfl | rfl <;> rfl
    · simp only [List.mem_cons, List.not_mem_nil, or_false] at h3
      rcases h3 with rfl
      rfl
  · split at h2
    · simp only [List.mem_cons, List.not_mem_nil, or_false] at h2
      rcases h2 with rfl
      rfl
    · cases h2

/-- Every run of the orchestrator either returns a suite, or returns an
error whose event trace is the non-error checkpoint events followed by
exactly one `error`-stage event carrying that error. -/
theorem generate_shape (settings : Settings)
    (llm code_llm : String → String → Except String String)
    (requirement : Requirement) (client_context : Option ClientContext)
    (gg gs gp ie ineg ib : Bool) (now : String) :
    (∃ s, (generate_test_suite settings llm code_llm requirement client_context
        gg gs gp ie ineg ib now).result = .ok s)
    ∨ (∃ e pre,
        (generate_test_suite settings llm code_llm requirement client_context
          gg gs gp ie ineg ib now).result = .error e
        ∧ (generate_test_suite settings llm code_llm requirement client_context
            gg gs gp ie ineg ib now).events = pre ++ [errorEvent e]
        ∧ ∀ ev ∈ pre, ev.stage ≠ "error") := by
  simp only [generate_test_suite]
  split
  · -- manual-stage adapter call raised
    right
    refine ⟨_, _, rfl, rfl, ?_⟩
    intro ev hev
    simp only [List.mem_cons, List.not_mem_nil, or_false] at hev
    rcases hev with rfl | rfl | rfl <;> (rw [stepEvent_stage]; decide)
  · -- manual call succeeded
    rename_i resp heq1
    split
    · -- gherkin stage raised
      rename_i acc2 e heq2
      right
      obtain ⟨extra, hev2, hst2⟩ := runOptionalStage_events_of heq2
      refine ⟨e, acc2.events, rfl, rfl, ?_⟩
      intro ev hev
      rw [hev2] at hev
      rcases List.mem_append.mp hev with h2 | h2
      · have := mem_manual_events h2
        rw [this]
        decide
      · rw [hst2 ev h2]
        decide
    · -- gherkin ok
      rename_i acc2 gherkin_scripts heq2
      split
      · -- selenium stage raised
        rename_i acc3 e heq3
        right
        obtain ⟨extra2, hev2, hst2⟩ := runOptionalStage_events_of heq2
        obtain ⟨extra3, hev3, hst3⟩ := runOptionalStage_events_of heq3
        refine ⟨e, acc3.events, rfl, rfl, ?_⟩
        intro ev hev
        rw [hev3, hev2] at hev
        rcases List.mem_append.mp hev with h2 | h2
        · rcases List.mem_append.mp h2 with h3 | h3
          · have := mem_manual_events h3
            rw [this]
            decide
          · rw [hst2 ev h3]
            decide
        · rw [hst3 ev h2]
          decide
      · -- selenium ok
        rename_i acc3 selenium_scripts heq3
        split
        · -- playwright stage raised
          rename_i acc4 e heq4
          right
          obtain ⟨extra2, hev2, hst2⟩ := runOptionalStage_events_of heq2
          obtain ⟨extra3, hev3, hst3⟩ := runOptionalStage_events_of heq3
          obtain ⟨extra4, hev4, hst4⟩ := runOptionalStage_events_of heq4
          refine ⟨e, acc4.events, rfl, rfl, ?_⟩
          intro ev hev
          rw [hev4, hev3, hev2] at hev
          rcases List.mem_append.mp hev with h2 | h2
          · rcases List.mem_append.mp h2 with h3 | h3
            · rcases List.mem_append.mp h3 with h4 | h4
              · have := mem_manual_events h4
                rw [this]
                decide
              · rw [hst2 ev h4]
                decide
            · rw [hst3 ev h3]
              decide
          · rw [hst4 ev h2]
            decide
        · -- playwright ok: a suite is returned
          rename_i acc4 playwright_scripts heq4
          left
          exact ⟨_, rfl⟩

theorem runOptionalStage_false
    (adapter : String → String → Except String String)
    (tag modelName sys prompt p1 p2 : String)
    (parser : String → List AutomationScript)
    (okMsg : List AutomationScript → Except String String)
    (emptyMsg : String) (total : Nat) (acc : StageAcc) :
    runOptionalStage false adapter tag modelName sys prompt p1 p2 parser okMsg
      emptyMsg total acc = (acc, .ok []) := rfl

/-- C4: when the underlying adapter `generate` call raises during any
stage (modelled: the run result is `Except.error e`), the orchestrator
emits exactly one progress event with stage `"error"` — it is the final
event, carries the completion flag, the failure description `str(e)` and
the message `"Generation failed"` — and re-raises the same exception, so
no `TestSuite` value is returned to the caller. -/
theorem c4_error_propagation (settings : Settings)
    (llm code_llm : String → String → Except String String)
    (requirement : Requirement) (client_context : Option ClientContext)
    (gg gs gp ie ineg ib : Bool) (now : String) (e : String)
    (h : (generate_test_suite settings llm code_llm requirement client_context
        gg gs gp ie ineg ib now).result = .error e) :
    ((generate_test_suite settings llm code_llm requirement client_context
        gg gs gp ie ineg ib now).events.filter
          (fun ev => ev.stage = "error")).length = 1
    ∧ (generate_test_suite settings llm code_llm requirement client_context
        gg gs gp ie ineg ib now).events.getLast? = some (errorEvent e)
    ∧ (errorEvent e).completed = true
    ∧ (errorEvent e).error = some e
    ∧ (errorEvent e).message = "Generation failed"
    ∧ ∀ s : TestSuite,
        ¬ (generate_test_suite settings llm code_llm requirement client_context
            gg gs gp ie ineg ib now).result = .ok s := by
  rcases generate_shape settings llm code_llm requirement client_context
      gg gs gp ie ineg ib now with ⟨s, hs⟩ | ⟨e2, pre, hr, hev, hpre⟩
  · rw [hs] at h
    cases h
  · have he : e2 = e := by
      rw [hr] at h
      cases h
      rfl
    subst he
    refine ⟨?_, ?_, rfl, rfl, rfl, ?_⟩
    · rw [hev, List.filter_append]
      have hnil : pre.filter (fun ev => ev.stage = "error") = [] := by
        rw [List.filter_eq_nil_iff]
        intro a ha
        simpa using hpre a ha
      rw [hnil]
      rfl
    · rw [hev]
      exact List.getLast?_concat pre
    · intro s hc
      rw [hr] at hc
      cases hc

theorem c4_witness :
    (generate_test_suite ⟨"m", "c"⟩ (fun _ _ => Except.error "boom")
        (fun _ _ => Except.ok "x") ⟨"req.txt", "content"⟩ none
        false false false true true true "T").result = Except.error "boom"
    ∧ ((generate_test_suite ⟨"m", "c"⟩ (fun _ _ => Except.error "boom")
        (fun _ _ => Except.ok "x") ⟨"req.txt", "content"⟩ none
        false false false true true true "T").events.filter
          (fun ev => ev.stage = "error")).length = 1
    ∧ (generate_test_suite ⟨"m", "c"⟩ (fun _ _ => Except.error "boom")
        (fun _ _ => Except.ok "x") ⟨"req.txt", "content"⟩ none
        false false false true true true "T").events.getLast?
        = some (errorEvent "boom") :=
  ⟨by decide,
   (c4_error_propagation ⟨"m", "c"⟩ (fun _ _ => Except.error "boom")
      (fun _ _ => Except.ok "x") ⟨"req.txt", "content"⟩ none
      false false false true true true "T" "boom" (by decide)).1,
   (c4_error_propagation ⟨"m", "c"⟩ (fun _ _ => Except.error "boom")
      (fun _ _ => Except.ok "x") ⟨"req.txt", "content"⟩ none
      false false false true true true "T" "boom" (by decide)).2.1⟩

theorem stepEvent_progress (total current : Nat) (st msg : String) (sub : ℚ) :
    (stepEvent total current st msg sub).progress
      = min ((current : ℚ) / (total : ℚ) + 1 / (total : ℚ) * sub) (99 / 100) := rfl

/-- C5: in a manual-only generation call whose adapter call succeeds, the
progress fractions carried by the emitted events are non-decreasing,
every event before the final one has fraction strictly below 1, and the
final event has stage `"complete"` with fraction exactly 1. -/
theorem c5_progress_monotonic (settings : Settings)
    (llm code_llm : String → String → Except String String)
    (requirement : Requirement) (client_context : Option ClientContext)
    (ie ineg ib : Bool) (now resp : String)
    (h : llm (get_manual_test_prompt requirement.content
        (contextTextOf client_context) ie ineg ib) SYSTEM_PROMPT
      = Except.ok resp) :
    List.Chain' (fun a b => a ≤ b)
      ((generate_test_suite settings llm code_llm requirement client_context
          false false false ie ineg ib now).events.map (fun ev => ev.progress))
    ∧ (∀ q ∈ ((generate_test_suite settings llm code_llm requirement
          client_context false false false ie ineg ib now).events.map
            (fun ev => ev.progress)).dropLast, q < 1)
    ∧ (∃ msg, (generate_test_suite settings llm code_llm requirement
          client_context false false false ie ineg ib now).events.getLast?
        = some ⟨"complete", 1, msg, false, none⟩) := by
  simp only [generate_test_suite, h, runOptionalStage_false]
  by_cases hE : (parse_manual_tests resp).isEmpty
  · simp only [hE, if_true]
    refine ⟨?_, ?_, ⟨_, List.getLast?_concat _⟩⟩ <;>
      simp only [List.append_assoc, List.cons_append, List.nil_append,
        List.append_nil, List.map_cons, List.map_nil, List.map_append,
        stepEvent_progress, Bool.false_eq_true, if_false, Nat.add_zero]
    · simp only [List.chain'_cons, List.chain'_singleton, and_true]
      norm_num [min_def]
    · simp only [List.dropLast, List.mem_cons, List.not_mem_nil, or_false]
      rintro q (rfl | rfl | rfl | rfl | rfl) <;> norm_num [min_def]
  · simp only [hE, Bool.false_eq_true, if_false]
    refine ⟨?_, ?_, ⟨_, List.getLast?_concat _⟩⟩ <;>
      simp only [List.append_assoc, List.cons_append, List.nil_append,
        List.append_nil, List.map_cons, List.map_nil, List.map_append,
        stepEvent_progress, Bool.false_eq_true, if_false, Nat.add_zero]
    · simp only [List.chain'_cons, List.chain'_singleton, and_true]
      norm_num [min_def]
    · simp only [List.dropLast, List.mem_cons, List.not_mem_nil, or_false]
      rintro q (rfl | rfl | rfl | rfl) <;> norm_num [min_def]

theorem c5_witness :
    List.Chain' (fun a b => a ≤ b)
      ((generate_test_suite ⟨"m", "c"⟩ (fun _ _ => Except.ok "x")
          (fun _ _ => Except.ok "x") ⟨"f.txt", "r"⟩ none
          false false false true true true "T").events.map (fun ev => ev.progress))
    ∧ (∀ q ∈ ((generate_test_suite ⟨"m", "c"⟩ (fun _ _ => Except.ok "x")
          (fun _ _ => Except.ok "x") ⟨"f.txt", "r"⟩ none
          false false false true true true "T").events.map
            (fun ev => ev.progress)).dropLast, q < 1)
    ∧ (∃ msg, (generate_test_suite ⟨"m", "c"⟩ (fun _ _ => Except.ok "x")
          (fun _ _ => Except.ok "x") ⟨"f.txt", "r"⟩ none
          false false false true true true "T").events.getLast?
        = some ⟨"complete", 1, msg, false, none⟩) :=
  c5_progress_monotonic ⟨"m", "c"⟩ (fun _ _ => Except.ok "x")
    (fun _ _ => Except.ok "x") ⟨"f.txt", "r"⟩ none true true true "T" "x" rfl

theorem stageResult_false
    (adapter : String → String → Except String String) (prompt sys : String)
    (parser : String → List AutomationScript)
    (okMsg : List AutomationScript → Except String String) (emptyMsg : String) :
    stageResult false adapter prompt sys parser okMsg emptyMsg = .ok [] := rfl

/-- The run result as a function of the manual call and the three
per-stage outcomes (`stageResult`), which depend only on the flag, the
adapter, the prompt and the parser — not on the progress bookkeeping. -/
theorem generate_result_eq (settings : Settings)
    (llm code_llm : String → String → Except String String)
    (requirement : Requirement) (client_context : Option ClientContext)
    (gg gs gp ie ineg ib : Bool) (now : String) :
    (generate_test_suite settings llm code_llm requirement client_context
        gg gs gp ie ineg ib now).result
      = (match llm (get_manual_test_prompt requirement.content
            (contextTextOf client_context) ie ineg ib) SYSTEM_PROMPT with
        | .error e => .error e
        | .ok resp =>
          match stageResult gg llm (gherkinPromptOf requirement client_context resp)
              SYSTEM_PROMPT parse_gherkin_scripts gherkinOkMsg
              "⚠️ Gherkin generation returned empty — LLM response could not be parsed into feature files" with
          | .error e => .error e
          | .ok gherkin_scripts =>
            match stageResult gs code_llm
                (seleniumPromptOf requirement client_context resp) SYSTEM_PROMPT
                (fun r => parse_automation_scripts r "selenium")
                (fun ss => .ok ("✅ Generated " ++ toString ss.length
                  ++ " Selenium Python test script(s)"))
                "⚠️ Selenium generation returned empty — CodeLlama response could not be parsed" with
            | .error e => .error e
            | .ok selenium_scripts =>
              match stageResult gp code_llm
                  (playwrightPromptOf requirement client_context resp) SYSTEM_PROMPT
                  (fun r => parse_automation_scripts r "playwright")
                  (fun ss => .ok ("✅ Generated " ++ toString ss.length
                    ++ " Playwright test spec(s)"))
                  "⚠️ Playwright generation returned empty — CodeLlama response could not be parsed" with
              | .error e => .error e
              | .ok playwright_scripts =>
                .ok ⟨requirement.get_display_name,
                     "Test suite generated from " ++ requirement.filename,
                     parse_manual_tests resp, gherkin_scripts, selenium_scripts,
                     playwright_scripts, clientNameOf client_context,
                     requirement.filename, now⟩) := by
  simp only [generate_test_suite]
  split
  · rfl
  · rename_i resp heq1
    split
    · rename_i acc2 e heq2
      rw [← runOptionalStage_snd_of heq2]
    · rename_i acc2 gherkin_scripts heq2
      rw [← runOptionalStage_snd_of heq2]
      split
      · rename_i acc3 e heq3
        rw [← runOptionalStage_snd_of heq3]
      · rename_i acc3 selenium_scripts heq3
        rw [← runOptionalStage_snd_of heq3]
        split
        · rename_i acc4 e heq4
          rw [← runOptionalStage_snd_of heq4]
        · rename_i acc4 playwright_scripts heq4
          rw [← runOptionalStage_snd_of heq4]

/-- The call log as a function of the same data: the manual call always;
each optional stage's call exactly when its flag is set and no earlier
stage failed. -/
theorem generate_calls_eq (settings : Settings)
    (llm code_llm : String → String → Except String String)
    (requirement : Requirement) (client_context : Option ClientContext)
    (gg gs gp ie ineg ib : Bool) (now : String) :
    (generate_test_suite settings llm code_llm requirement client_context
        gg gs gp ie ineg ib now).calls
      = (match llm (get_manual_test_prompt requirement.content
            (contextTextOf client_context) ie ineg ib) SYSTEM_PROMPT with
        | .error _ =>
          [⟨"manual", "llm",
            get_manual_test_prompt requirement.content
              (contextTextOf client_context) ie ineg ib, SYSTEM_PROMPT⟩]
        | .ok resp =>
          [(⟨"manual", "llm",
            get_manual_test_prompt requirement.content
              (contextTextOf client_context) ie ineg ib, SYSTEM_PROMPT⟩ : CallRecord)]
          ++ (if gg then
                [(⟨"gherkin", "llm",
                  gherkinPromptOf requirement client_context resp,
                  SYSTEM_PROMPT⟩ : CallRecord)] else [])
          ++ (match stageResult gg llm
                (gherkinPromptOf requirement client_context resp)
                SYSTEM_PROMPT parse_gherkin_scripts gherkinOkMsg
                "⚠️ Gherkin generation returned empty — LLM response could not be parsed into feature files" with
              | .error _ => []
              | .ok _ =>
                (if gs then
                  [(⟨"selenium", "code_llm",
                    seleniumPromptOf requirement client_context resp,
                    SYSTEM_PROMPT⟩ : CallRecord)] else [])
                ++ (match stageResult gs code_llm
                      (seleniumPromptOf requirement client_context resp)
                      SYSTEM_PROMPT
                      (fun r => parse_automation_scripts r "selenium")
                      (fun ss => .ok ("✅ Generated " ++ toString ss.length
                        ++ " Selenium Python test script(s)"))
                      "⚠️ Selenium generation returned empty — CodeLlama response could not be parsed" with
                    | .error _ => []
                    | .ok _ =>
                      (if gp then
                        [(⟨"playwright", "code_llm",
                          playwrightPromptOf requirement client_context resp,
                          SYSTEM_PROMPT⟩ : CallRecord)] else [])))) := by
  simp only [generate_test_suite]
  split
  · rfl
  · rename_i resp heq1
    split
    · rename_i acc2 e heq2
      rw [← runOptionalStage_snd_of heq2, runOptionalStage_calls_of heq2]
      simp
    · rename_i acc2 gherkin_scripts heq2
      rw [← runOptionalStage_snd_of heq2]
      split
      · rename_i acc3 e heq3
        rw [← runOptionalStage_snd_of heq3, runOptionalStage_calls_of heq3,
          runOptionalStage_calls_of heq2]
        simp
      · rename_i acc3 selenium_scripts heq3
        rw [← runOptionalStage_snd_of heq3]
        split
        · rename_i acc4 e heq4
          rw [runOptionalStage_calls_of heq4, runOptionalStage_calls_of heq3,
            runOptionalStage_calls_of heq2]
          simp
        · rename_i acc4 playwright_scripts heq4
          rw [runOptionalStage_calls_of heq4, runOptionalStage_calls_of heq3,
            runOptionalStage_calls_of heq2]
          simp

theorem mem_opt_singleton {α : Type} {x y : α} {b : Bool}
    (h : x ∈ (if b then [y] else ([] : List α))) : b = true ∧ x = y := by
  cases b <;> simp_all

/-- Every call record logged by a run carries the stage tag of its
stage, and an optional-stage tag occurs only when its flag is set. -/
theorem calls_stages (settings : Settings)
    (llm code_llm : String → String → Except String String)
    (requirement : Requirement) (client_context : Option ClientContext)
    (gg gs gp ie ineg ib : Bool) (now : String) :
    ∀ cr ∈ (generate_test_suite settings llm code_llm requirement client_context
        gg gs gp ie ineg ib now).calls,
      cr.stage = "manual" ∨ (gg = true ∧ cr.stage = "gherkin")
        ∨ (gs = true ∧ cr.stage = "selenium")
        ∨ (gp = true ∧ cr.stage = "playwright") := by
  intro cr hcr
  rw [generate_calls_eq] at hcr
  rcases hllm : llm (get_manual_test_prompt requirement.content
      (contextTextOf client_context) ie ineg ib) SYSTEM_PROMPT with e | resp <;>
    simp only [hllm] at hcr
  · simp only [List.mem_cons, List.not_mem_nil, or_false] at hcr
    subst hcr
    exact Or.inl rfl
  · simp only [List.mem_append] at hcr
    rcases hcr with (hm | hg) | hmatch
    · simp only [List.mem_cons, List.not_mem_nil, or_false] at hm
      subst hm
      exact Or.inl rfl
    · obtain ⟨hb, rfl⟩ := mem_opt_singleton hg
      exact Or.inr (Or.inl ⟨hb, rfl⟩)
    · rcases hgr : stageResult gg llm (gherkinPromptOf requirement client_context resp)
          SYSTEM_PROMPT parse_gherkin_scripts gherkinOkMsg
          "⚠️ Gherkin generation returned empty — LLM response could not be parsed into feature files"
        with e | x <;> simp only [hgr] at hmatch
      · exact absurd hmatch (List.not_mem_nil cr)
      · simp only [List.mem_append] at hmatch
        rcases hmatch with hs | hmatch2
        · obtain ⟨hb, rfl⟩ := mem_opt_singleton hs
          exact Or.inr (Or.inr (Or.inl ⟨hb, rfl⟩))
        · rcases hsr : stageResult gs code_llm
              (seleniumPromptOf requirement client_context resp) SYSTEM_PROMPT
              (fun r => parse_automation_scripts r "selenium")
              (fun ss => .ok ("✅ Generated " ++ toString ss.length
                ++ " Selenium Python test script(s)"))
              "⚠️ Selenium generation returned empty — CodeLlama response could not be parsed"
            with e | y <;> simp only [hsr] at hmatch2
          · exact absurd hmatch2 (List.not_mem_nil cr)
          · obtain ⟨hb, rfl⟩ := mem_opt_singleton hmatch2
            exact Or.inr (Or.inr (Or.inr ⟨hb, rfl⟩))

/-- C10: for every generation call whose optional stage flag
(`generate_gherkin`, `generate_selenium` or `generate_playwright`) is
false, the returned suite's corresponding script list is empty, no model
call is made for that stage, and the other fields of the suite are
unaffected by the flag: a successful run with the flag set maps to the
same run with the flag cleared by merely emptying that one list.  The
final conjunct is a concrete run (Gherkin off, the other two on) whose
call log holds exactly the manual, Selenium and Playwright calls. -/
theorem c10_optional_stage_frame :
    (∀ (settings : Settings) (llm code_llm : String → String → Except String String)
        (requirement : Requirement) (client_context : Option ClientContext)
        (gs gp ie ineg ib : Bool) (now : String) (s : TestSuite),
        (generate_test_suite settings llm code_llm requirement client_context
            false gs gp ie ineg ib now).result = .ok s → s.gherkin_scripts = [])
    ∧ (∀ (settings : Settings) (llm code_llm : String → String → Except String String)
        (requirement : Requirement) (client_context : Option ClientContext)
        (gs gp ie ineg ib : Bool) (now : String),
        ∀ cr ∈ (generate_test_suite settings llm code_llm requirement client_context
            false gs gp ie ineg ib now).calls, ¬ cr.stage = "gherkin")
    ∧ (∀ (settings : Settings) (llm code_llm : String → String → Except String String)
        (requirement : Requirement) (client_context : Option ClientContext)
        (gs gp ie ineg ib : Bool) (now : String) (s : TestSuite),
        (generate_test_suite settings llm code_llm requirement client_context
            true gs gp ie ineg ib now).result = .ok s →
        (generate_test_suite settings llm code_llm requirement client_context
            false gs gp ie ineg ib now).result = .ok (suiteWithoutGherkin s))
    ∧ (∀ (settings : Settings) (llm code_llm : String → String → Except String String)
        (requirement : Requirement) (client_context : Option ClientContext)
        (gg gp ie ineg ib : Bool) (now : String) (s : TestSuite),
        (generate_test_suite settings llm code_llm requirement client_context
            gg false gp ie ineg ib now).result = .ok s → s.selenium_scripts = [])
    ∧ (∀ (settings : Settings) (llm code_llm : String → String → Except String String)
        (requirement : Requirement) (client_context : Option ClientContext)
        (gg gp ie ineg ib : Bool) (now : String),
        ∀ cr ∈ (generate_test_suite settings llm code_llm requirement client_context
            gg false gp ie ineg ib now).calls, ¬ cr.stage = "selenium")
    ∧ (∀ (settings : Settings) (llm code_llm : String → String → Except String String)
        (requirement : Requirement) (client_context : Option ClientContext)
        (gg gp ie ineg ib : Bool) (now : String) (s : TestSuite),
        (generate_test_suite settings llm code_llm requirement client_context
            gg true gp ie ineg ib now).result = .ok s →
        (generate_test_suite settings llm code_llm requirement client_context
            gg false gp ie ineg ib now).result = .ok (suiteWithoutSelenium s))
    ∧ (∀ (settings : Settings) (llm code_llm : String → String → Except String String)
        (requirement : Requirement) (client_context : Option ClientContext)
        (gg gs ie ineg ib : Bool) (now : String) (s : TestSuite),
        (generate_test_suite settings llm code_llm requirement client_context
            gg gs false ie ineg ib now).result = .ok s → s.playwright_scripts = [])
    ∧ (∀ (settings : Settings) (llm code_llm : String → String → Except String String)
        (requirement : Requirement) (client_context : Option ClientContext)
        (gg gs ie ineg ib : Bool) (now : String),
        ∀ cr ∈ (generate_test_suite settings llm code_llm requirement client_context
            gg gs false ie ineg ib now).calls, ¬ cr.stage = "playwright")
    ∧ (∀ (settings : Settings) (llm code_llm : String → String → Except String String)
        (requirement : Requirement) (client_context : Option ClientContext)
        (gg gs ie ineg ib : Bool) (now : String) (s : TestSuite),
        (generate_test_suite settings llm code_llm requirement client_context
            gg gs true ie ineg ib now).result = .ok s →
        (generate_test_suite settings llm code_llm requirement client_context
            gg gs false ie ineg ib now).result = .ok (suiteWithoutPlaywright s))
    ∧ (generate_test_suite ⟨"m", "c"⟩ (fun _ _ => Except.ok "x")
        (fun _ _ => Except.ok "x") ⟨"f.txt", "r"⟩ none false true true
        true true true "T").calls.map (fun cr => cr.stage)
      = ["manual", "selenium", "playwright"] := by
  refine ⟨?_, ?_, ?_, ?_, ?_, ?_, ?_, ?_, ?_, by rfl⟩
  · intro settings llm code_llm requirement client_context gs gp ie ineg ib now s h
    rw [generate_result_eq] at h
    rcases hllm : llm (get_manual_test_prompt requirement.content
        (contextTextOf client_context) ie ineg ib) SYSTEM_PROMPT with e | resp <;>
      simp only [hllm, stageResult_false] at h
    · exact Except.noConfusion h
    · split at h
      · exact Except.noConfusion h
      · rename_i sel heq3
        split at h
        · exact Except.noConfusion h
        · rename_i pl heq4
          simp only [Except.ok.injEq] at h
          subst h
          rfl
  · intro settings llm code_llm requirement client_context gs gp ie ineg ib now cr hcr
    rcases calls_stages settings llm code_llm requirement client_context
        false gs gp ie ineg ib now cr hcr with h | ⟨hb, _⟩ | ⟨_, h⟩ | ⟨_, h⟩
    · rw [h]; decide
    · exact absurd hb (by decide)
    · rw [h]; decide
    · rw [h]; decide
  · intro settings llm code_llm requirement client_context gs gp ie ineg ib now s h
    rw [generate_result_eq] at h ⊢
    rcases hllm : llm (get_manual_test_prompt requirement.content
        (contextTextOf client_context) ie ineg ib) SYSTEM_PROMPT with e | resp <;>
      simp only [hllm, stageResult_false] at h ⊢
    · exact Except.noConfusion h
    · split at h
      · exact Except.noConfusion h
      · rename_i gsc heq2
        split at h
        · exact Except.noConfusion h
        · rename_i sel heq3
          split at h
          · exact Except.noConfusion h
          · rename_i pl heq4
            simp only [Except.ok.injEq] at h
            subst h
            rfl
  · intro settings llm code_llm requirement client_context gg gp ie ineg ib now s h
    rw [generate_result_eq] at h
    rcases hllm : llm (get_manual_test_prompt requirement.content
        (contextTextOf client_context) ie ineg ib) SYSTEM_PROMPT with e | resp <;>
      simp only [hllm, stageResult_false] at h
    · exact Except.noConfusion h
    · split at h
      · exact Except.noConfusion h
      · rename_i gsc heq2
        split at h
        · exact Except.noConfusion h
        · rename_i pl heq4
          simp only [Except.ok.injEq] at h
          subst h
          rfl
  · intro settings llm code_llm requirement client_context gg gp ie ineg ib now cr hcr
    rcases calls_stages settings llm code_llm requirement client_context
        gg false gp ie ineg ib now cr hcr with h | ⟨_, h⟩ | ⟨hb, _⟩ | ⟨_, h⟩
    · rw [h]; decide
    · rw [h]; decide
    · exact absurd hb (by decide)
    · rw [h]; decide
  · intro settings llm code_llm requirement client_context gg gp ie ineg ib now s h
    rw [generate_result_eq] at h ⊢
    rcases hllm : llm (get_manual_test_prompt requirement.content
        (contextTextOf client_context) ie ineg ib) SYSTEM_PROMPT with e | resp <;>
      simp only [hllm, stageResult_false] at h ⊢
    · exact Except.noConfusion h
    · split at h
      · exact Except.noConfusion h
      · rename_i gsc heq2
        split at h
        · exact Except.noConfusion h
        · rename_i sel heq3
          split at h
          · exact Except.noConfusion h
          · rename_i pl heq4
            simp only [Except.ok.injEq] at h
            subst h
            rfl
  · intro settings llm code_llm requirement client_context gg gs ie ineg ib now s h
    rw [generate_result_eq] at h
    rcases hllm : llm (get_manual_test_prompt requirement.content
        (contextTextOf client_context) ie ineg ib) SYSTEM_PROMPT with e | resp <;>
      simp only [hllm, stageResult_false] at h
    · exact Except.noConfusion h
    · split at h
      · exact Except.noConfusion h
      · rename_i gsc heq2
        split at h
        · exact Except.noConfusion h
        · rename_i sel heq3
          simp only [Except.ok.injEq] at h
          subst h
          rfl
  · intro settings llm code_llm requirement client_context gg gs ie ineg ib now cr hcr
    rcases calls_stages settings llm code_llm requirement client_context
        gg gs false ie ineg ib now cr hcr with h | ⟨_, h⟩ | ⟨_, h⟩ | ⟨hb, _⟩
    · rw [h]; decide
    · rw [h]; decide
    · rw [h]; decide
    · exact absurd hb (by decide)
  · intro settings llm code_llm requirement client_context gg gs ie ineg ib now s h
    rw [generate_result_eq] at h ⊢
    rcases hllm : llm (get_manual_test_prompt requirement.content
        (contextTextOf client_context) ie ineg ib) SYSTEM_PROMPT with e | resp <;>
      simp only [hllm, stageResult_false] at h ⊢
    · exact Except.noConfusion h
    · split at h
      · exact Except.noConfusion h
      · rename_i gsc heq2
        split at h
        · exact Except.noConfusion h
        · rename_i sel heq3
          split at h
          · exact Except.noConfusion h
          · rename_i pl heq4
            simp only [Except.ok.injEq] at h
            subst h
            rfl

end SmarTest
